import Mathlib

/-!
Shallow embedding of the icer TypeScript simulation core.

Sources embedded (paths relative to the repository root):
- `src/entities/base.ts` (`GameObject`): property bag, capability queries,
  `setPosition`, `destroy`.
- entity subclasses: `player.ts`, `objects/wall.ts`, `objects/stone.ts`,
  `iceBlock.ts`, `objects/flame.ts`, `objects/pot.ts`, `objects/portal.ts`.
- `world/gameWorld.ts` (`GameWorld`): grid + coordinate-keyed index,
  `addObject` / `removeObject` / `moveObject` / `getObjectAt`.
- `physics/physicsEngine.ts` (`PhysicsEngine`): accumulator `update`,
  `fixedUpdate`, gravity, landing, pairwise collision resolution.
- `physics/pushSystem.ts` (`PushSystem`): `requestPush`,
  `processPushRequests`, `canPushTo`, `checkPushConstraints`,
  `checkChainPushes`.
- `rules/gameRules.ts` (`GameRulesSystem.handlePotPotInteraction`).
- `levels/levelManager.ts` (`createGameObjectFromChar`, `parseLevelData`,
  `createPortalPairs`) and `Portal.createPortalPair`.

Conventions: grid coordinates are `Int` (JS numbers used integrally);
timers and `dt` are `ℚ` (JS floats used for exact fractional arithmetic
in the embedded paths).  Object identity (TS reference identity) is an
explicit id (`Nat`) into a store; the world's `grid` 2D array is
represented by its set of non-null cells as an insertion-ordered
association list, and the `objects` map (keyed by the string "x,y") is
a second association list with JS `Map` set/delete semantics.
Render-only floating state (flame flicker brightness, player bob
animation offset, wall-clock `last_push_time`, the `setTimeout` that
clears `just_pushed`) is outside the simulation state and not modelled.
-/

namespace Icer

/-- Entity kinds, mirroring the `getType()` strings
`player`, `wall`, `stone`, `ice_block`, `flame`, `pot`, `portal`. -/
inductive ObjType where
  | player
  | wall
  | stone
  | iceBlock
  | flame
  | pot
  | portal
deriving DecidableEq, Repr

/-- Push directions (`'left' | 'right'` in `pushSystem.ts`). -/
inductive Dir where
  | left
  | right
deriving DecidableEq, Repr

/-- The `properties: Map<string, any>` bag of `GameObject`.
Each field is one key of the map; `none` means the key is absent.
Only keys that the embedded code reads or writes are carried. -/
structure Props where
  solid : Option Bool := none
  pushable : Option Bool := none
  fragile : Option Bool := none
  supportsWeight : Option Bool := none
  weight : Option Int := none
  pushDistance : Option Int := none
  staticFlag : Option Bool := none
  sliding : Option Bool := none
  isHot : Option Bool := none
  isCold : Option Bool := none
  justPushed : Option Bool := none
  flammable : Option Bool := none
  canJump : Option Bool := none
  extinguishesFlames : Option Bool := none
  isFire : Option Bool := none
  portalGroup : Option String := none
deriving DecidableEq, Repr

/-- Per-kind private fields of the entity subclasses.  Flame's
flicker phase/brightness and Player's animation offset are render-only
and omitted; the remaining fields are the simulation-relevant ones. -/
inductive KindData where
  | player (jumpCooldown iceCreateCooldown : ℚ) (moveDirection : Int)
  | wall
  | stone
  | iceBlock (meltTimer : ℚ) (isMelting : Bool)
  | flame
  | pot (isCold : Bool) (heatTimer : ℚ) (isHeating : Bool)
  | portal (pairedPortal : Option Nat) (portalId : String) (cooldown : ℚ)
deriving DecidableEq, Repr

/-- A `GameObject`: grid position, liveness flag, kind tag,
property bag and kind-private state.  The `position : Vector2` field of
the TS class always mirrors `(gridX, gridY)` (both are only written
through `setPosition`), so it is not duplicated here. -/
structure Obj where
  gridX : Int
  gridY : Int
  isActive : Bool := true
  otype : ObjType
  props : Props
  kind : KindData
deriving DecidableEq, Repr

namespace Obj

/-- `isSolid()`: `getProperty('solid', true)`. -/
def isSolid (o : Obj) : Bool := o.props.solid.getD true

/-- `isPushable()`: `getProperty('pushable', false)`. -/
def isPushable (o : Obj) : Bool := o.props.pushable.getD false

/-- `isFragile()`: `getProperty('fragile', false)`. -/
def isFragile (o : Obj) : Bool := o.props.fragile.getD false

/-- `canSupportWeight()`: `getProperty('supports_weight', true)`. -/
def canSupportWeight (o : Obj) : Bool := o.props.supportsWeight.getD true

/-- `getWeight()`: base returns `getProperty('weight', 1)`;
`Stone.getWeight()` overrides it to return the constant 3. -/
def getWeight (o : Obj) : Int :=
  match o.otype with
  | .stone => 3
  | _ => o.props.weight.getD 1

/-- `getPushDistance()`: `getProperty('push_distance', 1)`. -/
def getPushDistance (o : Obj) : Int := o.props.pushDistance.getD 1

/-- `setPosition(x, y)`: writes `gridX`, `gridY` (and the mirrored
`position` vector). -/
def setPosition (o : Obj) (x y : Int) : Obj := { o with gridX := x, gridY := y }

/-- `onDestroy()`: sets `isActive = false`. -/
def onDestroy (o : Obj) : Obj := { o with isActive := false }

/-- `destroy()`: only fragile objects actually deactivate;
non-fragile objects silently refuse. -/
def destroy (o : Obj) : Obj := if o.isFragile then o.onDestroy else o

end Obj

/-- `new Player(x, y)`. -/
def mkPlayer (x y : Int) : Obj :=
  { gridX := x, gridY := y, otype := .player
    props := { solid := some true, pushable := some false, weight := some 1
               canJump := some true }
    kind := .player 0 0 0 }

/-- `new Wall(x, y)`; weight is `Number.MAX_SAFE_INTEGER`. -/
def mkWall (x y : Int) : Obj :=
  { gridX := x, gridY := y, otype := .wall
    props := { solid := some true, pushable := some false, fragile := some false
               supportsWeight := some true, weight := some 9007199254740991 }
    kind := .wall }

/-- `new Stone(x, y)`. -/
def mkStone (x y : Int) : Obj :=
  { gridX := x, gridY := y, otype := .stone
    props := { solid := some true, pushable := some true, fragile := some false
               supportsWeight := some true, weight := some 3
               pushDistance := some 1 }
    kind := .stone }

/-- `new IceBlock(x, y)`. -/
def mkIceBlock (x y : Int) : Obj :=
  { gridX := x, gridY := y, otype := .iceBlock
    props := { solid := some true, pushable := some true, fragile := some true
               supportsWeight := some true, weight := some 1
               pushDistance := some 1, extinguishesFlames := some true }
    kind := .iceBlock 0 false }

/-- `new Flame(x, y)`. -/
def mkFlame (x y : Int) : Obj :=
  { gridX := x, gridY := y, otype := .flame
    props := { solid := some false, pushable := some false, fragile := some true
               supportsWeight := some false, weight := some 0
               isFire := some true }
    kind := .flame }

/-- `new Pot(x, y, isCold)`. -/
def mkPot (x y : Int) (isCold : Bool) : Obj :=
  { gridX := x, gridY := y, otype := .pot
    props := { solid := some true, pushable := some true, fragile := some false
               supportsWeight := some true, weight := some 2
               pushDistance := some 1
               isCold := some isCold, isHot := some (!isCold) }
    kind := .pot isCold 0 false }

/-- `new Portal(x, y, portalId)`. -/
def mkPortal (x y : Int) (pid : String) : Obj :=
  { gridX := x, gridY := y, otype := .portal
    props := { solid := some false, pushable := some false, fragile := some false
               supportsWeight := some false, weight := some 0 }
    kind := .portal none pid 0 }

/-! ### Ice block lifecycle (`iceBlock.ts`) -/

/-- `ICE_MELT_TIME = 3.0` (`game/constants.ts`). -/
def ICE_MELT_TIME : ℚ := 3

/-- `IceBlock.startMelting()`: sets `isMelting = true` and
`meltTimer = 0`.  On objects of any other kind (invoked through the
optional-call `(obj as any).startMelting?.()`) it is a no-op. -/
def startMelting (o : Obj) : Obj :=
  match o.kind with
  | .iceBlock _ _ => { o with kind := .iceBlock 0 true }
  | _ => o

/-- `IceBlock.update(dt)`: while melting, accumulate the timer and
`destroy()` once it reaches `ICE_MELT_TIME`. -/
def iceBlockUpdate (o : Obj) (dt : ℚ) : Obj :=
  match o.kind with
  | .iceBlock meltTimer isMelting =>
    if isMelting then
      let t := meltTimer + dt
      let o' := { o with kind := .iceBlock t isMelting }
      if t ≥ ICE_MELT_TIME then o'.destroy else o'
    else o
  | _ => o

/-! ### Pot thermal state (`pot.ts`) -/

/-- `Pot.startHeating()`: `isHeating = true`, `heatTimer = 0`.
No-op on non-pots (optional call). -/
def startHeating (o : Obj) : Obj :=
  match o.kind with
  | .pot isCold _ _ => { o with kind := .pot isCold 0 true }
  | _ => o

/-- `Pot.heatUp()`: becomes hot and updates the property bag. -/
def heatUp (o : Obj) : Obj :=
  match o.kind with
  | .pot _ heatTimer isHeating =>
    { o with kind := .pot false heatTimer isHeating
             props := { o.props with isCold := some false, isHot := some true } }
  | _ => o

/-- `Pot.coolDown()`: becomes cold and updates the property bag.
No-op on non-pots (optional call). -/
def coolDown (o : Obj) : Obj :=
  match o.kind with
  | .pot _ heatTimer isHeating =>
    { o with kind := .pot true heatTimer isHeating
             props := { o.props with isCold := some true, isHot := some false } }
  | _ => o

/-- `Pot.update(dt)`: while heating, accumulate the timer; at 2.0
seconds `heatUp()` and stop heating. -/
def potUpdate (o : Obj) (dt : ℚ) : Obj :=
  match o.kind with
  | .pot isCold heatTimer isHeating =>
    if isHeating then
      let t := heatTimer + dt
      if t ≥ 2 then
        let o' := heatUp { o with kind := .pot isCold t isHeating }
        match o'.kind with
        | .pot c tt _ => { o' with kind := .pot c tt false }
        | _ => o'
      else { o with kind := .pot isCold t isHeating }
    else o
  | _ => o

/-! ### The World (`world/gameWorld.ts`)

TS objects are heap references; here every live `GameObject` gets an id
(`Nat`) into `store`.  `grid` models the non-null cells of the
`GridCell[][]` array (key `(x, y)` present iff `grid[y][x].object` is
non-null), and `index` models the `objects: Map<string, GameObject>`
keyed by `"x,y"`, as insertion-ordered association lists with JS `Map`
set (update-in-place or append) and delete semantics. -/

/-- JS `Map.set`: update the value in place if the key exists,
otherwise append the new entry. -/
def mapSet {α β : Type} [DecidableEq α] : List (α × β) → α → β → List (α × β)
  | [], k, v => [(k, v)]
  | (k', v') :: rest, k, v =>
    if k' = k then (k, v) :: rest else (k', v') :: mapSet rest k v

/-- JS `Map.delete`: remove the entry with the given key, if present. -/
def mapDelete {α β : Type} [DecidableEq α] : List (α × β) → α → List (α × β)
  | [], _ => []
  | (k', v') :: rest, k =>
    if k' = k then rest else (k', v') :: mapDelete rest k

/-- JS `Map.get`: the value stored at the key, if any. -/
def mapGet {α β : Type} [DecidableEq α] : List (α × β) → α → Option β
  | [], _ => none
  | (k', v') :: rest, k => if k' = k then some v' else mapGet rest k

/-- The `GameWorld`: dimensions, grid cells, coordinate index, and the
id-addressed object store (TS heap). -/
structure World where
  width : Int
  height : Int
  grid : List ((Int × Int) × Nat) := []
  index : List ((Int × Int) × Nat) := []
  store : List (Nat × Obj) := []
deriving DecidableEq, Repr

namespace World

/-- Look an object up in the heap by id. -/
def obj (w : World) (i : Nat) : Option Obj := mapGet w.store i

/-- Overwrite the heap entry for an id (mutating a TS reference). -/
def setObj (w : World) (i : Nat) (o : Obj) : World :=
  { w with store := mapSet w.store i o }

/-- `isOutOfBounds(x, y)`. -/
def isOutOfBounds (w : World) (x y : Int) : Bool :=
  x < 0 || x ≥ w.width || y < 0 || y ≥ w.height

/-- The raw grid cell `grid[y][x].object` (id form). -/
def cell (w : World) (x y : Int) : Option Nat := mapGet w.grid (x, y)

/-- `getObjectAt(x, y)`: `null` when out of bounds, else the cell. -/
def getObjectAt (w : World) (x y : Int) : Option Nat :=
  if w.isOutOfBounds x y then none else w.cell x y

/-- `addObject(object, x, y)`: refuse out-of-bounds or occupied cells;
otherwise `setPosition`, occupy the grid cell and index the object. -/
def addObject (w : World) (i : Nat) (o : Obj) (x y : Int) : Bool × World :=
  if w.isOutOfBounds x y then (false, w)
  else if (w.cell x y).isSome then (false, w)
  else
    (true,
      { w with grid := mapSet w.grid (x, y) i
               index := mapSet w.index (x, y) i
               store := mapSet w.store i (o.setPosition x y) })

/-- `removeObject(x, y)`: return and clear the occupant, or `null`. -/
def removeObject (w : World) (x y : Int) : Option Nat × World :=
  if w.isOutOfBounds x y then (none, w)
  else
    match w.cell x y with
    | none => (none, w)
    | some i =>
      (some i,
        { w with grid := mapDelete w.grid (x, y)
                 index := mapDelete w.index (x, y) })

/-- `moveObject(fromX, fromY, toX, toY)`: fail on out-of-bounds
endpoints, empty source, or occupied destination; on success clear the
source cell, occupy the destination, update the index and
`setPosition` the occupant. -/
def moveObject (w : World) (fromX fromY toX toY : Int) : Bool × World :=
  if w.isOutOfBounds fromX fromY || w.isOutOfBounds toX toY then (false, w)
  else
    match w.cell fromX fromY with
    | none => (false, w)
    | some i =>
      if (w.cell toX toY).isSome then (false, w)
      else
        (true,
          { w with
              grid := mapSet (mapDelete w.grid (fromX, fromY)) (toX, toY) i
              index := mapSet (mapDelete w.index (fromX, fromY)) (toX, toY) i
              store :=
                match mapGet w.store i with
                | some o => mapSet w.store i (o.setPosition toX toY)
                | none => w.store })

/-- `getAllObjects()`: the index's values in insertion order. -/
def getAllObjects (w : World) : List Nat := w.index.map (·.2)

end World

/-- `Portal.isReady()`: `cooldown <= 0 && pairedPortal !== null`. -/
def isReady (o : Obj) : Bool :=
  match o.kind with
  | .portal pairedPortal _ cooldown => decide (cooldown ≤ 0) && pairedPortal.isSome
  | _ => false

/-- `Portal.canTeleport(obj)`: only player, ice blocks, stones and pots
teleport. -/
def canTeleportType (t : ObjType) : Bool :=
  t == .player || t == .iceBlock || t == .stone || t == .pot

/-- `Portal.teleport(obj)` (`portal.ts` lines 53-68): re-check the
pair, then `obj.setPosition(paired.gridX, paired.gridY)` — a DIRECT
position-field mutation, not a `World.moveObject` — and put a 1.0s
cooldown on both portals. -/
def portalTeleport (w : World) (selfId otherId : Nat) : World :=
  match w.obj selfId with
  | some self =>
    match self.kind with
    | .portal (some pairedId) pid _ =>
      match w.obj pairedId with
      | some paired =>
        let w1 :=
          match w.obj otherId with
          | some other =>
            w.setObj otherId (other.setPosition paired.gridX paired.gridY)
          | none => w
        let w2 := w1.setObj selfId { self with kind := .portal (some pairedId) pid 1 }
        match w2.obj pairedId with
        | some p =>
          w2.setObj pairedId
            (match p.kind with
             | .portal pp ps _ => { p with kind := .portal pp ps 1 }
             | _ => p)
        | none => w2
      | none => w
    | _ => w
  | none => w

/-- The private `isCold` field of a Pot (`this.isCold`). -/
def potIsCold (o : Obj) : Bool :=
  match o.kind with
  | .pot c _ _ => c
  | _ => false

/-- `onCollision(other)` dispatch: the per-kind overrides of
`GameObject.onCollision` (base class: no-op, used by Player and Wall).
`self` receives the event; mutations go through the store. -/
def objOnCollision (w : World) (selfId otherId : Nat) : World :=
  match w.obj selfId, w.obj otherId with
  | some self, some other =>
    match self.otype with
    | .iceBlock =>
      -- IceBlock.onCollision: flame → startMelting, flame destroyed.
      if other.otype == .flame then
        (w.setObj selfId (startMelting self)).setObj otherId other.destroy
      else w
    | .flame =>
      -- Flame.onCollision: ice block or cold pot → extinguish (destroy self).
      if other.otype == .iceBlock then w.setObj selfId self.destroy
      else if other.otype == .pot && other.props.isCold.getD false then
        w.setObj selfId self.destroy
      else w
    | .pot =>
      -- Pot.onCollision: flame + cold → startHeating, flame destroyed;
      -- ice + hot → ice destroyed, pot cools.
      if other.otype == .flame && potIsCold self then
        (w.setObj selfId (startHeating self)).setObj otherId other.destroy
      else if other.otype == .iceBlock && !potIsCold self then
        (w.setObj otherId other.destroy).setObj selfId (coolDown self)
      else w
    | .stone =>
      -- Stone.onCollision: flame → flame destroyed.
      if other.otype == .flame then w.setObj otherId other.destroy else w
    | .portal =>
      -- Portal.onCollision: needs a pair, no cooldown, eligible kind.
      match self.kind with
      | .portal pairedPortal _ cooldown =>
        if pairedPortal.isNone || decide (cooldown > 0) then w
        else if canTeleportType other.otype then portalTeleport w selfId otherId
        else w
      | _ => w
    | _ => w
  | _, _ => w

/-! ### Physics engine (`physicsEngine.ts`) -/

/-- `FIXED_TIMESTEP = 1.0 / 60.0` (`game/constants.ts`). -/
def FIXED_TIMESTEP : ℚ := 1 / 60

/-- `isAffectedByGravity(object)`: solid, not flagged `static`, not a
wall. -/
def isAffectedByGravity (o : Obj) : Bool :=
  o.isSolid && !(o.props.staticFlag.getD false) && o.otype != .wall

/-- `shouldFall(object, belowY)`: never below row 0; fall if the cell
below is empty or its occupant cannot support weight. -/
def shouldFall (w : World) (o : Obj) (belowY : Int) : Bool :=
  if belowY < 0 then false
  else
    match w.getObjectAt o.gridX belowY with
    | none => true
    | some j =>
      match w.obj j with
      | some below => !below.canSupportWeight
      | none => true

/-- `handleLanding(object, targetY)`: after a successful fall, fire
`onCollision` both ways with the occupant of the cell below the
landing cell, then let a heavier faller crush a fragile landed-on
object. -/
def handleLanding (w : World) (objId : Nat) (targetY : Int) : World :=
  let belowY := targetY - 1
  if belowY ≥ 0 then
    match w.obj objId with
    | some o =>
      match w.getObjectAt o.gridX belowY with
      | some belowId =>
        let w1 := objOnCollision w objId belowId
        let w2 := objOnCollision w1 belowId objId
        match w2.obj objId, w2.obj belowId with
        | some o2, some b2 =>
          if o2.getWeight > b2.getWeight && b2.isFragile then
            w2.setObj belowId b2.destroy
          else w2
        | _, _ => w2
      | none => w
    | none => w
  else w

/-- `fallObject(object, targetY)`: relocate one cell down through
`World.moveObject`; only on success handle the landing. -/
def fallObject (w : World) (objId : Nat) (targetY : Int) : World :=
  match w.obj objId with
  | some o =>
    let r := w.moveObject o.gridX o.gridY o.gridX targetY
    if r.1 then handleLanding r.2 objId targetY else r.2
  | none => w

/-- `applyGravity(object, dt)` (dt is unused by the source): fall one
cell if `shouldFall`. -/
def applyGravity (w : World) (objId : Nat) : World :=
  match w.obj objId with
  | some o =>
    let belowY := o.gridY - 1
    if shouldFall w o belowY then fallObject w objId belowY else w
  | none => w

/-- `areColliding(obj1, obj2)`: same cell. -/
def areColliding (w : World) (i j : Nat) : Bool :=
  match w.obj i, w.obj j with
  | some a, some b => a.gridX == b.gridX && a.gridY == b.gridY
  | _, _ => false

/-- `isHotPot(obj)`: a pot with `getProperty('is_hot', false)`. -/
def isHotPotObj (o : Obj) : Bool :=
  o.otype == .pot && o.props.isHot.getD false

/-- `handleSpecialCollisions(obj1, obj2)`: fire+ice mutually destroy;
hot-pot+ice destroys the ice and cools the pot. -/
def handleSpecialCollisions (w : World) (i j : Nat) : World :=
  match w.obj i, w.obj j with
  | some o1, some o2 =>
    let w1 :=
      if (o1.otype == .flame && o2.otype == .iceBlock)
          || (o1.otype == .iceBlock && o2.otype == .flame) then
        let fireId := if o1.otype == .flame then i else j
        let iceId := if o1.otype == .iceBlock then i else j
        let wa :=
          match w.obj iceId with
          | some ice => w.setObj iceId ice.destroy
          | none => w
        match wa.obj fireId with
        | some fire => wa.setObj fireId fire.destroy
        | none => wa
      else w
    match w1.obj i, w1.obj j with
    | some p1, some p2 =>
      if (isHotPotObj p1 && p2.otype == .iceBlock)
          || (isHotPotObj p2 && p1.otype == .iceBlock) then
        let hotId := if isHotPotObj p1 then i else j
        let iceId := if p1.otype == .iceBlock then i else j
        let wb :=
          match w1.obj iceId with
          | some ice => w1.setObj iceId ice.destroy
          | none => w1
        match wb.obj hotId with
        | some pot => wb.setObj hotId (coolDown pot)
        | none => wb
      else w1
    | _, _ => w1
  | _, _ => w

/-- `resolveCollision(obj1, obj2)`: `onCollision` both ways, then the
special cases. -/
def resolveCollision (w : World) (i j : Nat) : World :=
  handleSpecialCollisions (objOnCollision (objOnCollision w i j) j i) i j

/-- Inner loop of `resolveCollisions`: pair object `i` with each later
object in the snapshot. -/
def collideList (w : World) (i : Nat) : List Nat → World
  | [] => w
  | j :: js =>
    collideList (if areColliding w i j then resolveCollision w i j else w) i js

/-- `resolveCollisions(objects)`: all distinct pairs, in snapshot
order. -/
def resolveCollisions (w : World) : List Nat → World
  | [] => w
  | i :: rest => resolveCollisions (collideList w i rest) rest

/-- Gravity loop of `fixedUpdate`: apply gravity to every affected
object in the snapshot. -/
def gravityPass (w : World) : List Nat → World
  | [] => w
  | i :: rest =>
    let w' :=
      match w.obj i with
      | some o => if isAffectedByGravity o then applyGravity w i else w
      | none => w
    gravityPass w' rest

/-- `fixedUpdate(dt)`: snapshot `getAllObjects()`, apply gravity to
every affected object, then resolve same-cell collisions over the same
snapshot. -/
def fixedStep (w : World) : World :=
  let objects := w.getAllObjects
  resolveCollisions (gravityPass w objects) objects

/-- `n` consecutive fixed physics steps. -/
def fixedSteps (n : Nat) (w : World) : World :=
  match n with
  | 0 => w
  | n + 1 => fixedSteps n (fixedStep w)

/-! ### Fixed-timestep accumulator (`PhysicsEngine.update`)

Only the accumulator arithmetic and the number of `fixedUpdate`
invocations are modelled here (the world effects of each invocation
are `fixedStep` above). -/

/-- The `while (accumulatedTime >= FIXED_TIMESTEP)` drain loop:
returns the remaining accumulator and the number of fixed steps
executed. -/
def drainSteps (acc : ℚ) : ℚ × Nat :=
  if h : FIXED_TIMESTEP ≤ acc then
    let p := drainSteps (acc - FIXED_TIMESTEP)
    (p.1, p.2 + 1)
  else (acc, 0)
termination_by (⌈acc * 60⌉).toNat
decreasing_by
  have h60 : (1 : ℚ) ≤ acc * 60 := by
    rw [FIXED_TIMESTEP] at h
    nlinarith
  have hc : (1 : ℤ) ≤ ⌈(acc * 60 : ℚ)⌉ := by
    calc (1 : ℤ) = ⌈(1 : ℚ)⌉ := by norm_num
    _ ≤ ⌈(acc * 60 : ℚ)⌉ := Int.ceil_le_ceil h60
  have heq : ((acc - FIXED_TIMESTEP) * 60 : ℚ) = acc * 60 - 1 := by
    rw [FIXED_TIMESTEP]; ring
  rw [heq]
  have hsub : ⌈(acc * 60 - 1 : ℚ)⌉ = ⌈(acc * 60 : ℚ)⌉ - 1 := by
    exact_mod_cast Int.ceil_sub_int (acc * 60) 1
  rw [hsub]
  omega

/-- `PhysicsEngine.update(dt)` (`physicsEngine.ts` lines 165-178):
add `dt` to the accumulator, drain it in fixed steps while at least
one step remains, then clamp the leftover to 0 if it still exceeds
10 fixed timesteps.  Returns the new accumulator and the number of
`fixedUpdate` calls performed. -/
def physicsUpdate (acc dt : ℚ) : ℚ × Nat :=
  let a := acc + dt
  let p := drainSteps a
  (if p.1 > FIXED_TIMESTEP * 10 then 0 else p.1, p.2)

/-! ### Push system (`pushSystem.ts`) -/

/-- A queued push request: object, direction, force and the
`push_distance` captured at request time. -/
structure PushRequest where
  objId : Nat
  direction : Dir
  force : ℚ
  distance : Int
deriving DecidableEq, Repr

/-- Push-system state: the world plus the pending request queue. -/
structure PushState where
  world : World
  requests : List PushRequest := []
deriving DecidableEq, Repr

/-- `requestPush(object, direction, force)`: no-op unless pushable;
otherwise enqueue with the object's current `push_distance`. -/
def requestPush (s : PushState) (objId : Nat) (direction : Dir) (force : ℚ) :
    PushState :=
  match s.world.obj objId with
  | some o =>
    if !o.isPushable then s
    else { s with requests := s.requests ++ [⟨objId, direction, force, o.getPushDistance⟩] }
  | none => s

/-- `isOnSolidGround(object)`: row 0 (or below) always counts; else the
cell below must hold a weight-supporting occupant. -/
def isOnSolidGround (w : World) (o : Obj) : Bool :=
  if o.gridY ≤ 0 then true
  else
    match w.getObjectAt o.gridX (o.gridY - 1) with
    | some j =>
      match w.obj j with
      | some ground => ground.canSupportWeight
      | none => false
    | none => false

/-- `checkPushConstraints(object)`: on solid ground, weight at most 5,
not sliding. -/
def checkPushConstraints (w : World) (o : Obj) : Bool :=
  if !isOnSolidGround w o then false
  else if o.getWeight > 5 then false
  else if o.props.sliding.getD false then false
  else true

/-- `canPushTo(object, targetX, targetY)`: target in bounds, target
cell empty or non-solid, and the physical constraints hold. -/
def canPushTo (w : World) (o : Obj) (targetX targetY : Int) : Bool :=
  if targetX < 0 || targetX ≥ w.width || targetY < 0 || targetY ≥ w.height then
    false
  else
    let blocked :=
      match w.getObjectAt targetX targetY with
      | some j =>
        match w.obj j with
        | some t => t.isSolid
        | none => false
      | none => false
    if blocked then false
    else checkPushConstraints w o

/-- Loop body of `checkChainPushes` for one adjacent position: a
pushable occupant other than the pushed object gets a chained
`requestPush` with direction given by the sign of `pos.x - x` and
force 0.5; a vertical neighbour (`dx = 0`) chains nothing. -/
def chainVisit (pushedId : Nat) (x : Int) (s' : PushState) (pos : Int × Int) :
    PushState :=
  match s'.world.getObjectAt pos.1 pos.2 with
  | some j =>
    match s'.world.obj j with
    | some o =>
      if o.isPushable && j ≠ pushedId then
        let dx := pos.1 - x
        if |dx| > 0 then
          requestPush s' j (if dx > 0 then .right else .left) (1 / 2)
        else s'
      else s'
    | none => s'
  | none => s'

/-- `checkChainPushes(pushedObject, x, y)`: scan the four orthogonal
neighbours of the new position. -/
def checkChainPushes (s : PushState) (pushedId : Nat) (x y : Int) : PushState :=
  let adjacent : List (Int × Int) := [(x - 1, y), (x + 1, y), (x, y - 1), (x, y + 1)]
  adjacent.foldl (chainVisit pushedId x) s

/-- `applyPushEffects(object, targetX, targetY)`: mark `just_pushed`
and fire the chain scan.  (`updatePhysicsAfterPush` only records a
wall-clock timestamp and schedules a real-time unset of `just_pushed`;
both live outside the simulation state.) -/
def applyPushEffects (s : PushState) (objId : Nat) (targetX targetY : Int) :
    PushState :=
  let s1 :=
    match s.world.obj objId with
    | some o =>
      let o' := { o with props := { o.props with justPushed := some true } }
      { s with world := s.world.setObj objId o' }
    | none => s
  checkChainPushes s1 objId targetX targetY

/-- `performPush(object, targetX, targetY)`: move through the World;
only on success apply the push effects. -/
def performPush (s : PushState) (objId : Nat) (targetX targetY : Int) :
    PushState :=
  match s.world.obj objId with
  | some o =>
    let r := s.world.moveObject o.gridX o.gridY targetX targetY
    if r.1 then applyPushEffects { s with world := r.2 } objId targetX targetY
    else { s with world := r.2 }
  | none => s

/-- `processPushRequest(request)`: compute the target cell from the
captured distance and push if allowed; otherwise drop silently. -/
def processPushRequest (s : PushState) (r : PushRequest) : PushState :=
  match s.world.obj r.objId with
  | some o =>
    let targetX :=
      match r.direction with
      | .left => o.gridX - r.distance
      | .right => o.gridX + r.distance
    if canPushTo s.world o targetX o.gridY then
      performPush s r.objId targetX o.gridY
    else s
  | none => s

/-- `processPushRequests()`: snapshot and clear the queue, then
process the snapshot in order; requests enqueued during processing
(chain pushes) survive into the queue for a later call. -/
def processPushRequests (s : PushState) : PushState :=
  let requests := s.requests
  let s0 : PushState := { s with requests := [] }
  requests.foldl processPushRequest s0

/-! ### Player movement (`player.ts`) -/

/-- Write the Player's private `moveDirection` field. -/
def setMoveDirection (o : Obj) (d : Int) : Obj :=
  match o.kind with
  | .player j i _ => { o with kind := .player j i d }
  | _ => o

/-- `Player.canStandAt(x, y)`: needs a weight-supporting occupant
directly below; never at the bottom row. -/
def canStandAt (w : World) (x y : Int) : Bool :=
  if y > 0 then
    match w.getObjectAt x (y - 1) with
    | some j =>
      match w.obj j with
      | some ground => ground.canSupportWeight
      | none => false
    | none => false
  else false

/-- `Player.tryPush(object, direction)`: target is
`gridX + direction * push_distance`; only the horizontal bound and
target-cell solidity are checked (none of the Push System's
constraints).  `moveObject` is attempted and `setPosition` is applied
to the pushed object unconditionally afterwards. -/
def tryPush (w : World) (objId : Nat) (direction : Int) : Bool × World :=
  match w.obj objId with
  | some o =>
    let targetX := o.gridX + direction * o.getPushDistance
    if 0 ≤ targetX && targetX < w.width then
      let blocked :=
        match w.getObjectAt targetX o.gridY with
        | some j =>
          match w.obj j with
          | some t => t.isSolid
          | none => false
        | none => false
      if !blocked then
        let r := w.moveObject o.gridX o.gridY targetX o.gridY
        let w2 :=
          match r.2.obj objId with
          | some o1 => r.2.setObj objId (o1.setPosition targetX o1.gridY)
          | none => r.2
        (true, w2)
      else (false, w)
    else (false, w)
  | none => w |> (false, ·)

/-- `Player.tryMove(newX, newY)`: bounds check; a solid pushable
occupant is pushed via `tryPush`, a solid non-pushable occupant blocks;
otherwise move if the player can stand there (again `setPosition` is
applied unconditionally after `moveObject`). -/
def tryMove (w : World) (playerId : Nat) (newX newY : Int) (direction : Int) :
    Bool × World :=
  match w.obj playerId with
  | some p =>
    if newX < 0 || newX ≥ w.width || newY < 0 || newY ≥ w.height then (false, w)
    else
      let solidTarget :=
        match w.getObjectAt newX newY with
        | some j =>
          match w.obj j with
          | some t => if t.isSolid then some (j, t) else none
          | none => none
        | none => none
      match solidTarget with
      | some (j, t) =>
        if t.isPushable then tryPush w j direction else (false, w)
      | none =>
        if canStandAt w newX newY then
          let r := w.moveObject p.gridX p.gridY newX newY
          let w2 :=
            match r.2.obj playerId with
            | some p1 => r.2.setObj playerId (p1.setPosition newX newY)
            | none => r.2
          (true, w2)
        else (false, w)
  | none => (false, w)

/-- `Player.moveLeft(gameWorld)`: set `moveDirection = -1` and try the
cell to the left. -/
def moveLeft (w : World) (playerId : Nat) : Bool × World :=
  match w.obj playerId with
  | some p =>
    let w0 := w.setObj playerId (setMoveDirection p (-1))
    tryMove w0 playerId (p.gridX - 1) p.gridY (-1)
  | none => (false, w)

/-- `Player.moveRight(gameWorld)`: set `moveDirection = 1` and try the
cell to the right. -/
def moveRight (w : World) (playerId : Nat) : Bool × World :=
  match w.obj playerId with
  | some p =>
    let w0 := w.setObj playerId (setMoveDirection p 1)
    tryMove w0 playerId (p.gridX + 1) p.gridY 1
  | none => (false, w)

/-! ### Rules engine: pot-pot interaction (`gameRules.ts` 309-321) -/

/-- `handlePotPotInteraction(pot1, pot2)`: read both `is_hot`
properties, then cool the hot member and start heating the cold one;
no effect when the temperatures agree. -/
def handlePotPotInteraction (p1 p2 : Obj) : Obj × Obj :=
  let pot1Hot := p1.props.isHot.getD false
  let pot2Hot := p2.props.isHot.getD false
  if pot1Hot && !pot2Hot then (coolDown p1, startHeating p2)
  else if !pot1Hot && pot2Hot then (startHeating p1, coolDown p2)
  else (p1, p2)

/-! ### Level parsing (`levelManager.ts`)

Object allocation (TS `new`) is modelled by threading a fresh-id
counter; ids are the TS heap references. -/

/-- `createGameObjectFromChar(char, x, y)`: the glyph table.  Unknown
glyphs (and the portal digits beyond 1-3) are logged and skipped
(`null`). -/
def createGameObjectFromChar (c : Char) (x y : Int) : Option Obj :=
  if c = 'P' then some (mkPlayer x y)
  else if c = 'W' then some (mkWall x y)
  else if c = 'I' then some (mkIceBlock x y)
  else if c = 'S' then some (mkStone x y)
  else if c = 'F' then some (mkFlame x y)
  else if c = 'C' then some (mkPot x y true)
  else if c = 'H' then some (mkPot x y false)
  else if c = '1' ∨ c = '2' ∨ c = '3' then
    let p := mkPortal x y ("portal_".push c)
    some { p with props := { p.props with portalGroup := some (String.mk [c]) } }
  else none

/-- `Portal.createPortalPair(x1, y1, x2, y2, portalId)`: allocate two
fresh portals and point their `pairedPortal` references at each
other.  Returns the pair and the advanced id counter. -/
def createPortalPair (nextId : Nat) (x1 y1 x2 y2 : Int) (pid : String) :
    ((Nat × Obj) × (Nat × Obj)) × Nat :=
  let base1 := mkPortal x1 y1 pid
  let base2 := mkPortal x2 y2 pid
  let portal1 := { base1 with kind := .portal (some (nextId + 1)) pid 0 }
  let portal2 := { base2 with kind := .portal (some nextId) pid 0 }
  (((nextId, portal1), (nextId + 1, portal2)), nextId + 2)

/-- Accumulate a portal into its `portal_group` bucket
(`Map<string, Portal[]>` with insertion order, `push` appends). -/
def groupAdd (groups : List (String × List (Nat × Obj))) (g : String)
    (e : Nat × Obj) : List (String × List (Nat × Obj)) :=
  match groups with
  | [] => [(g, [e])]
  | (g', es) :: rest =>
    if g' = g then (g', es ++ [e]) :: rest else (g', es) :: groupAdd rest g e

/-- First loop of `createPortalPairs`: group the portals among the
parsed objects by their `portal_group` property. -/
def collectPortalGroups (objects : List (Nat × Obj)) :
    List (String × List (Nat × Obj)) :=
  objects.foldl
    (fun groups e =>
      if e.2.otype == .portal then
        match e.2.props.portalGroup with
        | some g => groupAdd groups g e
        | none => groups
      else groups)
    []

/-- `LevelManager.createPortalPairs(objects)` (`levelManager.ts`
304-329): for each group of exactly two portals,
`Portal.createPortalPair(...)` is invoked — and its RETURN VALUE IS
DISCARDED: the two freshly allocated, mutually paired portals never
reach `objects` or the world, and the original portals in `objects`
are left untouched.  Groups of any other size do nothing.  The
function's only lasting effect is advancing the allocator. -/
def createPortalPairs (objects : List (Nat × Obj)) (nextId : Nat) :
    List (Nat × Obj) × Nat :=
  let groups := collectPortalGroups objects
  let nid :=
    groups.foldl
      (fun nid grp =>
        match grp.2 with
        | [p1, p2] =>
          (createPortalPair nid p1.2.gridX p1.2.gridY p2.2.gridX p2.2.gridY
            ("pair_" ++ grp.1)).2
        | _ => nid)
      nextId
  (objects, nid)

/-- One text row of `parseLevelData`: glyphs at columns
`x < min(row.length, level.width)` become objects at world row `y`. -/
def rowObjects (row : List Char) (width : Int) (y : Int) : List Obj :=
  (row.enum.filterMap
    (fun p => if (p.1 : Int) < width then createGameObjectFromChar p.2 p.1 y else none))

/-- All objects of a level grid; text row `r` maps to world row
`height - r - 1`. -/
def levelObjects (data : List (List Char)) (width height : Int) : List Obj :=
  (data.enum.map (fun p => rowObjects p.2 width (height - p.1 - 1))).flatten

/-- `parseLevelData(level)`: parse the rows into objects, run
`createPortalPairs` over them, then `addObject` every non-portal and
finally every portal (each at its own stored coordinates; failures
are ignored). -/
def parseLevelData (w : World) (data : List (List Char)) (width height : Int) :
    World :=
  let objs := (levelObjects data width height).enum
  let objs2 := (createPortalPairs objs objs.length).1
  let w1 :=
    objs2.foldl
      (fun wacc e =>
        if e.2.otype != .portal then (wacc.addObject e.1 e.2 e.2.gridX e.2.gridY).2
        else wacc)
      w
  objs2.foldl
    (fun wacc e =>
      if e.2.otype == .portal then (wacc.addObject e.1 e.2 e.2.gridX e.2.gridY).2
      else wacc)
    w1

/-- The position fields of the object with a given id, used to state
position (in)variance. -/
def posOf (w : World) (i : Nat) : Option (Int × Int) :=
  (w.obj i).map (fun o => (o.gridX, o.gridY))

/-- The guard of `Portal.onCollision` that decides whether
`teleport(other)` is invoked: the receiver's kind data is a portal
with a pair reference and no cooldown, and the other object's type is
teleport-eligible. -/
def mayTeleport (w : World) (a b : Nat) : Bool :=
  match w.obj a, w.obj b with
  | some s, some o =>
    (match s.kind with
     | .portal pairedPortal _ cooldown =>
       !(pairedPortal.isNone || decide (cooldown > 0)) && canTeleportType o.otype
     | _ => false)
  | _, _ => false

/-! ### Concrete scenario worlds used by witnesses and counterexamples -/

/-- An empty 20×15 world (the `GameWorld` default dimensions). -/
def emptyWorld : World := { width := 20, height := 15 }

/-- A lone stone at (5,10) above an empty column (C3 scenario). -/
def fallWorld : World := (emptyWorld.addObject 0 (mkStone 5 10) 5 10).2

/-- A stone at (0,1) directly above an unpaired portal at (0,0): the
portal cannot support weight, yet the stone cannot relocate into the
occupied cell. -/
def stoneOverPortalWorld : World :=
  ((emptyWorld.addObject 0 (mkStone 0 1) 0 1).2.addObject 1 (mkPortal 0 0 "p") 0 0).2

/-- Two mutually paired portals (ids 0 at (0,0) and 1 at (3,0), built
with `Portal.createPortalPair`) plus a stone (id 2) at (1,0). -/
def pairedPortalWorld : World :=
  let pr := createPortalPair 0 0 0 3 0 "pair_1"
  ((((emptyWorld.addObject pr.1.1.1 pr.1.1.2 0 0).2).addObject
      pr.1.2.1 pr.1.2.2 3 0).2.addObject 2 (mkStone 1 0) 1 0).2

/-- A stone with `push_distance` 2 at (2,0) and an ice block at (3,0):
pushing the stone right lands it at (4,0) with the ice block on the
left side of the new position. -/
def chainWorld : PushState :=
  let a := { mkStone 2 0 with props := { (mkStone 2 0).props with pushDistance := some 2 } }
  { world := ((emptyWorld.addObject 0 a 2 0).2.addObject 1 (mkIceBlock 3 0) 3 0).2 }

/-- A pushable pot whose `weight` property is 6, on the ground row with
an empty target cell. -/
def heavyPotWorld : PushState :=
  let p := { mkPot 2 0 true with props := { (mkPot 2 0 true).props with weight := some 6 } }
  { world := (emptyWorld.addObject 0 p 2 0).2 }

/-- A stone whose `weight` property was overridden to 6
(`Stone.getWeight()` still returns 3), on the ground row with an empty
target cell. -/
def heavyStoneWorld : PushState :=
  let s := { mkStone 2 0 with props := { (mkStone 2 0).props with weight := some 6 } }
  { world := (emptyWorld.addObject 0 s 2 0).2 }

/-- A player at (0,5) next to a solid pushable pot at (1,5) that is
floating (no support below), sliding, and has `weight` 6 — every Push
System constraint is violated. -/
def playerPushWorld : World :=
  let pot := { mkPot 1 5 true with props :=
    { (mkPot 1 5 true).props with weight := some 6, sliding := some true } }
  ((emptyWorld.addObject 0 (mkPlayer 0 5) 0 5).2.addObject 1 pot 1 5).2

/-- The world produced by loading a 3×1 level whose only glyphs are a
portal group of exactly two members: `"1.1"`. -/
def portalLevelWorld : World :=
  parseLevelData emptyWorld [['1', '.', '1']] 3 1

/-! ## Association-list (JS `Map`) lemmas -/

theorem mapGet_mapSet {α β : Type} [DecidableEq α] (l : List (α × β)) (k k' : α)
    (v : β) : mapGet (mapSet l k' v) k = if k = k' then some v else mapGet l k := by
  induction l with
  | nil =>
    by_cases h : k = k'
    · simp [mapSet, mapGet, h]
    · simp [mapSet, mapGet, h, Ne.symm h]
  | cons e rest ih =>
    obtain ⟨a, b⟩ := e
    by_cases hak : a = k'
    · subst hak
      by_cases hk : k = a
      · subst hk
        simp [mapSet, mapGet]
      · simp [mapSet, mapGet, hk, Ne.symm hk]
    · by_cases hk : k = a
      · subst hk
        simp [mapSet, mapGet, hak, fun hh : k = k' => hak hh]
      · simp [mapSet, mapGet, hak, hk, Ne.symm hk, ih]

theorem mapGet_mapDelete_ne {α β : Type} [DecidableEq α] (l : List (α × β))
    (k k' : α) (h : k ≠ k') : mapGet (mapDelete l k') k = mapGet l k := by
  induction l with
  | nil => simp [mapDelete, mapGet]
  | cons e rest ih =>
    obtain ⟨a, b⟩ := e
    by_cases hak : a = k'
    · subst hak
      simp [mapDelete, mapGet, Ne.symm h]
    · by_cases hk : a = k <;> simp [mapDelete, mapGet, hak, hk, ih, h]

theorem mapGet_eq_none_of_not_mem {α β : Type} [DecidableEq α]
    (l : List (α × β)) (k : α) (h : k ∉ l.map Prod.fst) : mapGet l k = none := by
  induction l with
  | nil => simp [mapGet]
  | cons e rest ih =>
    obtain ⟨a, b⟩ := e
    simp only [List.map_cons, List.mem_cons] at h
    push_neg at h
    simp [mapGet, Ne.symm h.1, ih h.2]

theorem mapGet_mapDelete_self {α β : Type} [DecidableEq α] (l : List (α × β))
    (k : α) (h : (l.map Prod.fst).Nodup) : mapGet (mapDelete l k) k = none := by
  induction l with
  | nil => simp [mapDelete, mapGet]
  | cons e rest ih =>
    obtain ⟨a, b⟩ := e
    simp only [List.map_cons, List.nodup_cons] at h
    by_cases hak : a = k
    · subst hak
      simpa [mapDelete] using mapGet_eq_none_of_not_mem rest a h.1
    · simp [mapDelete, hak, mapGet, ih h.2]

/-! ## Claim C4 — the spiral-of-death clamp is dead code -/

theorem drainSteps_rec (acc : ℚ) (h : FIXED_TIMESTEP ≤ acc) :
    drainSteps acc =
      ((drainSteps (acc - FIXED_TIMESTEP)).1, (drainSteps (acc - FIXED_TIMESTEP)).2 + 1) := by
  rw [drainSteps]
  simp [h]

theorem drainSteps_base (acc : ℚ) (h : ¬ FIXED_TIMESTEP ≤ acc) :
    drainSteps acc = (acc, 0) := by
  rw [drainSteps]
  simp [h]

theorem drainSteps_fst_lt (acc : ℚ) : (drainSteps acc).1 < FIXED_TIMESTEP := by
  by_cases h : FIXED_TIMESTEP ≤ acc
  · rw [drainSteps_rec acc h]
    exact drainSteps_fst_lt (acc - FIXED_TIMESTEP)
  · rw [drainSteps_base acc h]
    exact lt_of_not_le h
termination_by (⌈acc * 60⌉).toNat
decreasing_by
  have h60 : (1 : ℚ) ≤ acc * 60 := by
    rw [FIXED_TIMESTEP] at h
    nlinarith
  have hc : (1 : ℤ) ≤ ⌈(acc * 60 : ℚ)⌉ := by
    calc (1 : ℤ) = ⌈(1 : ℚ)⌉ := by norm_num
    _ ≤ ⌈(acc * 60 : ℚ)⌉ := Int.ceil_le_ceil h60
  have heq : ((acc - FIXED_TIMESTEP) * 60 : ℚ) = acc * 60 - 1 := by
    rw [FIXED_TIMESTEP]; ring
  rw [heq]
  have hsub : ⌈(acc * 60 - 1 : ℚ)⌉ = ⌈(acc * 60 : ℚ)⌉ - 1 := by
    exact_mod_cast Int.ceil_sub_int (acc * 60) 1
  rw [hsub]
  omega

/-- Claim C4, counterexample: for the update call with `acc = 0` and
`dt = 21/120` (10.5 fixed timesteps, which exceeds 10 of them), the
accumulator is NOT reset to zero and the fixed steps are NOT skipped:
the drain loop performs 10 steps and leaves 1/120 in the accumulator. -/
theorem C4_counterexample :
    (0 : ℚ) + 21 / 120 > FIXED_TIMESTEP * 10
    ∧ physicsUpdate 0 (21 / 120) = (1 / 120, 10)
    ∧ ¬ ((1 : ℚ) / 120 = 0) := by
  refine ⟨by norm_num [FIXED_TIMESTEP], ?_, by norm_num⟩
  have h1 : physicsUpdate 0 (21 / 120) =
      (if (drainSteps (21 / 120)).1 > FIXED_TIMESTEP * 10 then 0
       else (drainSteps (21 / 120)).1, (drainSteps (21 / 120)).2) := by
    norm_num [physicsUpdate]
  have h2 : drainSteps ((21 : ℚ) / 120) = (1 / 120, 10) := by
    rw [drainSteps_rec _ (by norm_num [FIXED_TIMESTEP]),
        show (21 : ℚ) / 120 - FIXED_TIMESTEP = 19 / 120 by norm_num [FIXED_TIMESTEP],
        drainSteps_rec _ (by norm_num [FIXED_TIMESTEP]),
        show (19 : ℚ) / 120 - FIXED_TIMESTEP = 17 / 120 by norm_num [FIXED_TIMESTEP],
        drainSteps_rec _ (by norm_num [FIXED_TIMESTEP]),
        show (17 : ℚ) / 120 - FIXED_TIMESTEP = 15 / 120 by norm_num [FIXED_TIMESTEP],
        drainSteps_rec _ (by norm_num [FIXED_TIMESTEP]),
        show (15 : ℚ) / 120 - FIXED_TIMESTEP = 13 / 120 by norm_num [FIXED_TIMESTEP],
        drainSteps_rec _ (by norm_num [FIXED_TIMESTEP]),
        show (13 : ℚ) / 120 - FIXED_TIMESTEP = 11 / 120 by norm_num [FIXED_TIMESTEP],
        drainSteps_rec _ (by norm_num [FIXED_TIMESTEP]),
        show (11 : ℚ) / 120 - FIXED_TIMESTEP = 9 / 120 by norm_num [FIXED_TIMESTEP],
        drainSteps_rec _ (by norm_num [FIXED_TIMESTEP]),
        show (9 : ℚ) / 120 - FIXED_TIMESTEP = 7 / 120 by norm_num [FIXED_TIMESTEP],
        drainSteps_rec _ (by norm_num [FIXED_TIMESTEP]),
        show (7 : ℚ) / 120 - FIXED_TIMESTEP = 5 / 120 by norm_num [FIXED_TIMESTEP],
        drainSteps_rec _ (by norm_num [FIXED_TIMESTEP]),
        show (5 : ℚ) / 120 - FIXED_TIMESTEP = 3 / 120 by norm_num [FIXED_TIMESTEP],
        drainSteps_rec _ (by norm_num [FIXED_TIMESTEP]),
        show (3 : ℚ) / 120 - FIXED_TIMESTEP = 1 / 120 by norm_num [FIXED_TIMESTEP],
        drainSteps_base _ (by norm_num [FIXED_TIMESTEP])]
  rw [h1, h2]
  norm_num [FIXED_TIMESTEP]

/-- Claim C4, amended: `PhysicsEngine.update` always drains the
accumulator step by step — after the `while` loop the accumulator is
below one `FIXED_TIMESTEP`, so the `> 10 * FIXED_TIMESTEP → reset to 0`
clamp that follows it can never fire (dead code), and no update call
ever discards accumulated time. -/
theorem C4_accumulator_always_drained (acc dt : ℚ) :
    physicsUpdate acc dt = drainSteps (acc + dt)
    ∧ (physicsUpdate acc dt).1 < FIXED_TIMESTEP := by
  have hlt := drainSteps_fst_lt (acc + dt)
  have hnot : ¬ (drainSteps (acc + dt)).1 > FIXED_TIMESTEP * 10 := by
    rw [FIXED_TIMESTEP] at hlt ⊢
    push_neg
    nlinarith
  constructor
  · simp [physicsUpdate, hnot]
  · simpa [physicsUpdate, hnot] using hlt

/-! ## Claim C6 — startMelting resets the melt timer -/

/-- Claim C6, counterexample: an ice block that has been melting for 1
second (melt timer 1) has its timer reset to 0 — not left at 1 — by a
second `startMelting` call. -/
theorem C6_counterexample :
    (iceBlockUpdate (startMelting (mkIceBlock 0 0)) 1).kind = KindData.iceBlock 1 true
    ∧ (startMelting (iceBlockUpdate (startMelting (mkIceBlock 0 0)) 1)).kind
        = KindData.iceBlock 0 true
    ∧ ((0 : ℚ) = 1 → False) := by
  refine ⟨?_, ?_, by norm_num⟩ <;>
    norm_num [iceBlockUpdate, startMelting, mkIceBlock, ICE_MELT_TIME]

/-- Claim C6, amended: `IceBlock.startMelting` always sets the melt
timer back to 0 (and the melting flag on), whatever the current timer
value; consequently repeated heat exposure within one melting episode
EXTENDS the block's lifetime — a block re-triggered after 2 seconds
survives 2 further seconds of melting (4 total), while 3 uninterrupted
seconds destroy it. -/
theorem C6_startMelting_resets (o : Obj) (t : ℚ) (m : Bool) :
    startMelting { o with kind := KindData.iceBlock t m }
      = { o with kind := KindData.iceBlock 0 true }
    ∧ (iceBlockUpdate (startMelting (iceBlockUpdate (startMelting (mkIceBlock 0 0)) 2)) 2).isActive
        = true
    ∧ (iceBlockUpdate (startMelting (mkIceBlock 0 0)) 3).isActive = false := by
  refine ⟨rfl, ?_, ?_⟩ <;>
    norm_num [iceBlockUpdate, startMelting, mkIceBlock, ICE_MELT_TIME,
      Obj.destroy, Obj.isFragile, Obj.onDestroy]

/-! ## Claim C8 — pot-pot temperature exchange -/

/-- Claim C8, confirmed: for a pair of pots (the `is_hot` property in
sync with the private `isCold` field, as the Pot constructor, `heatUp`
and `coolDown` maintain), one `handlePotPotInteraction` pass leaves
both pots unchanged when their temperatures agree; when exactly one is
hot it immediately cools the hot pot (cold, `is_hot = false`, timer
and heating flag untouched) and puts the cold pot into the heating
state (timer 0, heating flag on); and the resulting pair of states is
identical whether the pots are processed as (obj1, obj2) or as
(obj2, obj1). -/
theorem C8_pot_exchange_deterministic (p1 p2 : Obj) (c1 c2 : Bool) (t1 t2 : ℚ)
    (b1 b2 : Bool)
    (h1 : p1.kind = KindData.pot c1 t1 b1) (h2 : p2.kind = KindData.pot c2 t2 b2)
    (hh1 : p1.props.isHot = some (!c1)) (hh2 : p2.props.isHot = some (!c2)) :
    ((handlePotPotInteraction p1 p2).1 = (handlePotPotInteraction p2 p1).2
      ∧ (handlePotPotInteraction p1 p2).2 = (handlePotPotInteraction p2 p1).1)
    ∧ (c1 = c2 → handlePotPotInteraction p1 p2 = (p1, p2))
    ∧ (c1 = false → c2 = true →
        (handlePotPotInteraction p1 p2).1.kind = KindData.pot true t1 b1
        ∧ (handlePotPotInteraction p1 p2).1.props.isHot = some false
        ∧ (handlePotPotInteraction p1 p2).2.kind = KindData.pot c2 0 true
        ∧ (handlePotPotInteraction p1 p2).2.props.isHot = some false)
    ∧ (c1 = true → c2 = false →
        (handlePotPotInteraction p1 p2).1.kind = KindData.pot c1 0 true
        ∧ (handlePotPotInteraction p1 p2).1.props.isHot = some false
        ∧ (handlePotPotInteraction p1 p2).2.kind = KindData.pot true t2 b2
        ∧ (handlePotPotInteraction p1 p2).2.props.isHot = some false) := by
  cases c1 <;> cases c2 <;>
    simp_all [handlePotPotInteraction, coolDown, startHeating, h1, h2, hh1, hh2]

/-- Claim C8, witness: the hot pot `mkPot 0 0 false` and the cold pot
`mkPot 1 0 true` exchange temperatures deterministically. -/
theorem C8_pot_exchange_deterministic_witness :
    (handlePotPotInteraction (mkPot 0 0 false) (mkPot 1 0 true)).1.kind
      = KindData.pot true 0 false
    ∧ (handlePotPotInteraction (mkPot 0 0 false) (mkPot 1 0 true)).2.kind
      = KindData.pot true 0 true
    ∧ (handlePotPotInteraction (mkPot 0 0 false) (mkPot 1 0 true)).1
      = (handlePotPotInteraction (mkPot 1 0 true) (mkPot 0 0 false)).2 := by
  have h := C8_pot_exchange_deterministic (mkPot 0 0 false) (mkPot 1 0 true)
    false true 0 0 false false rfl rfl rfl rfl
  refine ⟨(h.2.2.1 rfl rfl).1, (h.2.2.1 rfl rfl).2.2.1, h.1.1⟩

/-! ## Claim C2 — moveObject atomicity -/

/-- Claim C2, confirmed: `moveObject` returns `false` and leaves the
world (grid, index, and every entity's fields) completely unchanged
whenever either endpoint is out of bounds, the source cell is empty,
or the destination cell is occupied; otherwise it returns `true`, the
source cell becomes empty, the destination cell holds the moved
entity, the index agrees, and the entity's `gridX`/`gridY` equal the
destination. -/
theorem C2_moveObject_atomic (w : World) (fx fy tx ty : Int) :
    ((w.isOutOfBounds fx fy || w.isOutOfBounds tx ty
        || (w.cell fx fy).isNone || (w.cell tx ty).isSome) = true →
      w.moveObject fx fy tx ty = (false, w))
    ∧ (∀ i o,
        (w.isOutOfBounds fx fy || w.isOutOfBounds tx ty) = false →
        w.cell fx fy = some i → w.cell tx ty = none →
        (w.grid.map Prod.fst).Nodup → (w.index.map Prod.fst).Nodup →
        mapGet w.store i = some o →
        (w.moveObject fx fy tx ty).1 = true
        ∧ (w.moveObject fx fy tx ty).2.getObjectAt fx fy = none
        ∧ (w.moveObject fx fy tx ty).2.getObjectAt tx ty = some i
        ∧ mapGet (w.moveObject fx fy tx ty).2.index (fx, fy) = none
        ∧ mapGet (w.moveObject fx fy tx ty).2.index (tx, ty) = some i
        ∧ (w.moveObject fx fy tx ty).2.obj i = some (o.setPosition tx ty)) := by
  constructor
  · intro h
    simp only [Bool.or_eq_true] at h
    rcases h with ((h1 | h1) | h1) | h1
    · simp [World.moveObject, h1]
    · simp [World.moveObject, h1]
    · rw [Option.isNone_iff_eq_none] at h1
      simp [World.moveObject, h1]
    · rw [Option.isSome_iff_exists] at h1
      obtain ⟨j, hj⟩ := h1
      cases hc : w.cell fx fy <;> simp [World.moveObject, hc, hj]
  · intro i o h1 hcf hct hgrid hindex hst
    have hne : (fx, fy) ≠ (tx, ty) := by
      intro hh
      have : w.cell fx fy = w.cell tx ty := by
        unfold World.cell
        rw [hh]
      rw [hcf, hct] at this
      exact Option.noConfusion this
    have hbf : w.isOutOfBounds fx fy = false := by
      cases hb : w.isOutOfBounds fx fy <;> simp_all
    have hbt : w.isOutOfBounds tx ty = false := by
      cases hb : w.isOutOfBounds tx ty <;> simp_all
    have hmv : w.moveObject fx fy tx ty =
        (true,
          { w with
              grid := mapSet (mapDelete w.grid (fx, fy)) (tx, ty) i
              index := mapSet (mapDelete w.index (fx, fy)) (tx, ty) i
              store := mapSet w.store i (o.setPosition tx ty) }) := by
      simp [World.moveObject, h1, hcf, hct, hst]
    refine ⟨by rw [hmv], ?_, ?_, ?_, ?_, ?_⟩
    · rw [hmv]
      simp only [World.getObjectAt, World.cell, World.isOutOfBounds] at hbf ⊢
      rw [if_neg (by simp_all), mapGet_mapSet, if_neg hne,
        mapGet_mapDelete_self _ _ hgrid]
    · rw [hmv]
      simp only [World.getObjectAt, World.cell, World.isOutOfBounds] at hbt ⊢
      rw [if_neg (by simp_all), mapGet_mapSet, if_pos rfl]
    · rw [hmv]
      simp only
      rw [mapGet_mapSet, if_neg hne, mapGet_mapDelete_self _ _ hindex]
    · rw [hmv]
      simp only
      rw [mapGet_mapSet, if_pos rfl]
    · rw [hmv]
      simp only [World.obj]
      rw [mapGet_mapSet, if_pos rfl]

/-- Claim C2, witness: in a world with a single stone at (1,1), the
move (5,5)→(1,1) fails and changes nothing, while the move (1,1)→(2,1)
succeeds and relocates the stone. -/
theorem C2_moveObject_atomic_witness :
    ((emptyWorld.addObject 0 (mkStone 1 1) 1 1).2.moveObject 5 5 1 1
        = (false, (emptyWorld.addObject 0 (mkStone 1 1) 1 1).2))
    ∧ ((emptyWorld.addObject 0 (mkStone 1 1) 1 1).2.moveObject 1 1 2 1).1 = true
    ∧ ((emptyWorld.addObject 0 (mkStone 1 1) 1 1).2.moveObject 1 1 2 1).2.getObjectAt 1 1
        = none
    ∧ ((emptyWorld.addObject 0 (mkStone 1 1) 1 1).2.moveObject 1 1 2 1).2.getObjectAt 2 1
        = some 0
    ∧ ((emptyWorld.addObject 0 (mkStone 1 1) 1 1).2.moveObject 1 1 2 1).2.obj 0
        = some ((mkStone 1 1).setPosition 2 1) := by
  have hfail := (C2_moveObject_atomic (emptyWorld.addObject 0 (mkStone 1 1) 1 1).2
    5 5 1 1).1 (by decide)
  have hok := (C2_moveObject_atomic (emptyWorld.addObject 0 (mkStone 1 1) 1 1).2
    1 1 2 1).2 0 (mkStone 1 1) (by decide) (by decide) (by decide) (by decide)
    (by decide) (by decide)
  exact ⟨hfail, hok.1, hok.2.1, hok.2.2.1, hok.2.2.2.2.2⟩

/-! ## Store/position helper lemmas -/

theorem obj_setObj_self (w : World) (m : Nat) (o' : Obj) :
    (w.setObj m o').obj m = some o' := by
  unfold World.obj World.setObj
  simp only
  rw [mapGet_mapSet]
  simp

theorem obj_setObj_ne (w : World) (m : Nat) (o' : Obj) (k : Nat) (h : k ≠ m) :
    (w.setObj m o').obj k = w.obj k := by
  unfold World.obj World.setObj
  simp only
  rw [mapGet_mapSet]
  simp [h]

theorem posOf_setObj (w : World) (m : Nat) (o' : Obj) (k : Nat) :
    posOf (w.setObj m o') k = if k = m then some (o'.gridX, o'.gridY) else posOf w k := by
  by_cases h : k = m
  · subst h
    simp [posOf, obj_setObj_self]
  · simp [posOf, obj_setObj_ne w m o' k h, h]

theorem getObjectAt_setObj (w : World) (m : Nat) (o' : Obj) (x y : Int) :
    (w.setObj m o').getObjectAt x y = w.getObjectAt x y := rfl

theorem setPosition_gridX (o : Obj) (x y : Int) : (o.setPosition x y).gridX = x := rfl

theorem setPosition_gridY (o : Obj) (x y : Int) : (o.setPosition x y).gridY = y := rfl

theorem destroy_gridX (o : Obj) : o.destroy.gridX = o.gridX := by
  unfold Obj.destroy Obj.onDestroy
  split <;> rfl

theorem destroy_gridY (o : Obj) : o.destroy.gridY = o.gridY := by
  unfold Obj.destroy Obj.onDestroy
  split <;> rfl

theorem destroy_otype (o : Obj) : o.destroy.otype = o.otype := by
  unfold Obj.destroy Obj.onDestroy
  split <;> rfl

theorem startMelting_gridX (o : Obj) : (startMelting o).gridX = o.gridX := by
  obtain ⟨gx, gy, act, ot, pr, k⟩ := o
  cases k <;> rfl

theorem startMelting_gridY (o : Obj) : (startMelting o).gridY = o.gridY := by
  obtain ⟨gx, gy, act, ot, pr, k⟩ := o
  cases k <;> rfl

theorem startMelting_otype (o : Obj) : (startMelting o).otype = o.otype := by
  obtain ⟨gx, gy, act, ot, pr, k⟩ := o
  cases k <;> rfl

theorem startHeating_gridX (o : Obj) : (startHeating o).gridX = o.gridX := by
  obtain ⟨gx, gy, act, ot, pr, k⟩ := o
  cases k <;> rfl

theorem startHeating_gridY (o : Obj) : (startHeating o).gridY = o.gridY := by
  obtain ⟨gx, gy, act, ot, pr, k⟩ := o
  cases k <;> rfl

theorem coolDown_gridX (o : Obj) : (coolDown o).gridX = o.gridX := by
  obtain ⟨gx, gy, act, ot, pr, k⟩ := o
  cases k <;> rfl

theorem coolDown_gridY (o : Obj) : (coolDown o).gridY = o.gridY := by
  obtain ⟨gx, gy, act, ot, pr, k⟩ := o
  cases k <;> rfl

theorem setMoveDirection_gridX (o : Obj) (d : Int) :
    (setMoveDirection o d).gridX = o.gridX := by
  obtain ⟨gx, gy, act, ot, pr, k⟩ := o
  cases k <;> rfl

theorem setMoveDirection_gridY (o : Obj) (d : Int) :
    (setMoveDirection o d).gridY = o.gridY := by
  obtain ⟨gx, gy, act, ot, pr, k⟩ := o
  cases k <;> rfl

/-! ## Claim C9 — push weight ceiling -/

/-- Claim C9, counterexample: a Stone whose `weight` PROPERTY was set
to 6 is still pushed successfully (from (2,0) to (3,0)), because
`checkPushConstraints` uses `getWeight()` and `Stone.getWeight()` is
hardcoded to return 3, ignoring the property bag. -/
theorem C9_counterexample :
    ((heavyStoneWorld.world.obj 0).map (fun o => o.props.weight)) = some (some 6)
    ∧ posOf heavyStoneWorld.world 0 = some (2, 0)
    ∧ posOf (processPushRequests (requestPush heavyStoneWorld 0 Dir.right 1)).world 0
        = some (3, 0) := by
  refine ⟨by decide, by decide, by decide⟩

/-- Claim C9, amended: a push request for an entity whose `getWeight()`
exceeds 5 always fails — the request is submitted and drained but the
world is left completely unchanged — regardless of target-cell
emptiness, ground support, or the `pushable` flag.  (For a Stone,
`getWeight()` is hardcoded to 3, so its `weight` property being 6 does
not trigger the ceiling; see the counterexample.) -/
theorem C9_push_weight_ceiling (w : World) (i : Nat) (o : Obj) (dir : Dir)
    (force : ℚ) (ho : w.obj i = some o) (hw : o.getWeight > 5) :
    (processPushRequests (requestPush { world := w, requests := [] } i dir force)).world
      = w
    ∧ (processPushRequests (requestPush { world := w, requests := [] } i dir force)).requests
      = [] := by
  have hcpc : checkPushConstraints w o = false := by
    unfold checkPushConstraints
    by_cases hg : isOnSolidGround w o <;> simp [hg, hw]
  have hcan : ∀ tx ty, canPushTo w o tx ty = false := by
    intro tx ty
    unfold canPushTo
    split
    · rfl
    · simp only [hcpc]
      split <;> rfl
  by_cases hp : o.isPushable
  · have hreq : requestPush { world := w, requests := [] } i dir force
        = { world := w, requests := [⟨i, dir, force, o.getPushDistance⟩] } := by
      simp [requestPush, ho, hp]
    rw [hreq]
    unfold processPushRequests
    simp only [List.foldl]
    unfold processPushRequest
    rw [ho]
    simp [hcan]
  · have hreq : requestPush { world := w, requests := [] } i dir force
        = { world := w, requests := [] } := by
      simp [requestPush, ho, hp]
    rw [hreq]
    unfold processPushRequests
    simp

/-- Claim C9, witness: the pushable pot with weight 6 on the ground
row, with an empty in-bounds target cell, is not moved (the world is
unchanged) by a drained push request. -/
theorem C9_push_weight_ceiling_witness :
    ((heavyPotWorld.world.obj 0).map Obj.getWeight) = some 6
    ∧ (processPushRequests
        (requestPush { world := heavyPotWorld.world, requests := [] } 0 Dir.right 1)).world
      = heavyPotWorld.world := by
  constructor
  · decide
  · exact (C9_push_weight_ceiling heavyPotWorld.world 0
      { mkPot 2 0 true with props := { (mkPot 2 0 true).props with weight := some 6 } }
      Dir.right 1 (by decide) (by decide)).1

/-! ## Claim C10 — player pushes bypass the Push System -/

theorem tryMove_push_spec (w0 : World) (pid eid : Nat) (p0 e : Obj)
    (dir nx ny : Int)
    (hp : w0.obj pid = some p0) (he : w0.obj eid = some e) (hne : pid ≠ eid)
    (hb : w0.isOutOfBounds nx ny = false)
    (hcell : w0.getObjectAt nx ny = some eid)
    (hsolid : e.isSolid = true) (hpush : e.isPushable = true)
    (hex : e.gridX = nx) (hey : e.gridY = ny)
    (htx0 : 0 ≤ e.gridX + dir * e.getPushDistance)
    (htxw : e.gridX + dir * e.getPushDistance < w0.width)
    (hfree : ∀ j, w0.getObjectAt (e.gridX + dir * e.getPushDistance) e.gridY = some j →
        j ≠ pid ∧ ∃ t, w0.obj j = some t ∧ t.isSolid = false) :
    (tryMove w0 pid nx ny dir).1 = true
    ∧ posOf (tryMove w0 pid nx ny dir).2 eid
        = some (e.gridX + dir * e.getPushDistance, e.gridY)
    ∧ posOf (tryMove w0 pid nx ny dir).2 pid = posOf w0 pid := by
  have hbp := hb
  simp only [World.isOutOfBounds] at hbp
  have htm : tryMove w0 pid nx ny dir = tryPush w0 eid dir := by
    unfold tryMove
    rw [hp]
    simp [hbp, hcell, he, hsolid, hpush]
  rw [htm]
  have hbounds : (decide (0 ≤ e.gridX + dir * e.getPushDistance)
      && decide (e.gridX + dir * e.getPushDistance < w0.width)) = true := by
    simp [htx0, htxw]
  have hnb : ¬nx < 0 ∧ ¬nx ≥ w0.width ∧ ¬ny < 0 ∧ ¬ny ≥ w0.height := by
    simpa [World.isOutOfBounds, Bool.or_eq_false_iff, decide_eq_false_iff_not,
      and_assoc] using hb
  have hsrcOOB : w0.isOutOfBounds e.gridX e.gridY = false := by
    rw [hex, hey]
    exact hb
  have hsrc : w0.cell e.gridX e.gridY = some eid := by
    have hgc := hcell
    unfold World.getObjectAt at hgc
    rw [hb] at hgc
    simpa [hex, hey] using hgc
  unfold tryPush
  rw [he]
  simp only [hbounds, if_true, Bool.and_self]
  cases hfb : w0.getObjectAt (e.gridX + dir * e.getPushDistance) e.gridY with
  | none =>
    have hdstOOB : w0.isOutOfBounds (e.gridX + dir * e.getPushDistance) e.gridY
        = false := by
      rw [hey]
      simp only [World.isOutOfBounds, Bool.or_eq_false_iff, decide_eq_false_iff_not]
      refine ⟨⟨⟨by omega, by omega⟩, hnb.2.2.1⟩, hnb.2.2.2⟩
    have hdst : w0.cell (e.gridX + dir * e.getPushDistance) e.gridY = none := by
      have := hfb
      unfold World.getObjectAt at this
      rw [hdstOOB] at this
      exact this
    have hmv : w0.moveObject e.gridX e.gridY (e.gridX + dir * e.getPushDistance)
        e.gridY =
        (true,
          { w0 with
              grid := mapSet (mapDelete w0.grid (e.gridX, e.gridY))
                (e.gridX + dir * e.getPushDistance, e.gridY) eid
              index := mapSet (mapDelete w0.index (e.gridX, e.gridY))
                (e.gridX + dir * e.getPushDistance, e.gridY) eid
              store := mapSet w0.store eid
                (e.setPosition (e.gridX + dir * e.getPushDistance) e.gridY) }) := by
      unfold World.moveObject
      rw [hsrcOOB, hdstOOB, hsrc, hdst]
      simp only [Bool.or_self, Bool.false_eq_true, if_false, Option.isSome_none]
      rw [show mapGet w0.store eid = w0.obj eid from rfl, he]
    rw [hmv]
    simp only
    have hobj : ({ w0 with
        grid := mapSet (mapDelete w0.grid (e.gridX, e.gridY))
          (e.gridX + dir * e.getPushDistance, e.gridY) eid
        index := mapSet (mapDelete w0.index (e.gridX, e.gridY))
          (e.gridX + dir * e.getPushDistance, e.gridY) eid
        store := mapSet w0.store eid
          (e.setPosition (e.gridX + dir * e.getPushDistance) e.gridY) } : World).obj eid
        = some (e.setPosition (e.gridX + dir * e.getPushDistance) e.gridY) := by
      unfold World.obj
      simp only
      rw [mapGet_mapSet]
      simp
    rw [hobj]
    simp only [Bool.not_false, if_true]
    refine ⟨trivial, ?_, ?_⟩
    · rw [posOf_setObj]
      simp [Obj.setPosition]
    · rw [posOf_setObj, if_neg hne]
      unfold posOf World.obj
      simp only
      rw [mapGet_mapSet, if_neg hne]
  | some j =>
    obtain ⟨hjpid, t, ht, hts⟩ := hfree j hfb
    have hdstcell : w0.cell (e.gridX + dir * e.getPushDistance) e.gridY = some j := by
      have := hfb
      unfold World.getObjectAt at this
      by_cases hoob : w0.isOutOfBounds (e.gridX + dir * e.getPushDistance) e.gridY
      · rw [if_pos hoob] at this
        exact Option.noConfusion this
      · rw [if_neg hoob] at this
        exact this
    have hmv : w0.moveObject e.gridX e.gridY (e.gridX + dir * e.getPushDistance)
        e.gridY = (false, w0) := by
      unfold World.moveObject
      rw [hsrc, hdstcell]
      split
      · rfl
      · simp
    simp only [ht, hts, Bool.not_false, if_true, Bool.false_eq_true, if_false]
    rw [hmv]
    simp only [he]
    refine ⟨trivial, ?_, ?_⟩
    · rw [posOf_setObj]
      simp [Obj.setPosition, hey]
    · rw [posOf_setObj, if_neg hne]

/-- Claim C10, confirmed: a player `moveLeft`/`moveRight` into a solid
pushable entity relocates that entity's position fields by
`direction * push_distance` and returns `true` with the player staying
in place, whenever the target column is in bounds and the target cell
is empty or holds a non-solid occupant — with none of the Push
System's checks (no weight ceiling, no ground support, no sliding
check: no hypothesis about any of them is needed). -/
theorem C10_player_push_bypasses_push_system (w : World) (pid eid : Nat)
    (p e : Obj) (dir : Int) (hdir : dir = 1 ∨ dir = -1)
    (hp : w.obj pid = some p) (he : w.obj eid = some e) (hne : pid ≠ eid)
    (hcell : w.getObjectAt (p.gridX + dir) p.gridY = some eid)
    (hex : e.gridX = p.gridX + dir) (hey : e.gridY = p.gridY)
    (hb : w.isOutOfBounds (p.gridX + dir) p.gridY = false)
    (hsolid : e.isSolid = true) (hpush : e.isPushable = true)
    (htx0 : 0 ≤ e.gridX + dir * e.getPushDistance)
    (htxw : e.gridX + dir * e.getPushDistance < w.width)
    (hfree : ∀ j, w.getObjectAt (e.gridX + dir * e.getPushDistance) e.gridY = some j →
        j ≠ pid ∧ ∃ t, w.obj j = some t ∧ t.isSolid = false) :
    ((if dir = 1 then moveRight w pid else moveLeft w pid).1 = true)
    ∧ posOf (if dir = 1 then moveRight w pid else moveLeft w pid).2 eid
        = some (e.gridX + dir * e.getPushDistance, e.gridY)
    ∧ posOf (if dir = 1 then moveRight w pid else moveLeft w pid).2 pid
        = some (p.gridX, p.gridY) := by
  have key : ∀ d : Int, d = dir →
      (tryMove (w.setObj pid (setMoveDirection p d)) pid (p.gridX + dir) p.gridY dir).1
        = true
      ∧ posOf (tryMove (w.setObj pid (setMoveDirection p d)) pid (p.gridX + dir)
          p.gridY dir).2 eid = some (e.gridX + dir * e.getPushDistance, e.gridY)
      ∧ posOf (tryMove (w.setObj pid (setMoveDirection p d)) pid (p.gridX + dir)
          p.gridY dir).2 pid = some (p.gridX, p.gridY) := by
    intro d hd
    set w0 := w.setObj pid (setMoveDirection p d) with hw0
    have hp0 : w0.obj pid = some (setMoveDirection p d) := obj_setObj_self w pid _
    have he0 : w0.obj eid = some e := by
      rw [hw0, obj_setObj_ne w pid _ eid (Ne.symm hne)]
      exact he
    have hfree0 : ∀ j, w0.getObjectAt (e.gridX + dir * e.getPushDistance) e.gridY
        = some j → j ≠ pid ∧ ∃ t, w0.obj j = some t ∧ t.isSolid = false := by
      intro j hj
      rw [hw0, getObjectAt_setObj] at hj
      obtain ⟨hjp, t, ht, hts⟩ := hfree j hj
      exact ⟨hjp, t, by rw [hw0, obj_setObj_ne w pid _ j hjp]; exact ht, hts⟩
    have h := tryMove_push_spec w0 pid eid (setMoveDirection p d) e dir
      (p.gridX + dir) p.gridY hp0 he0 hne
      (by rw [hw0]; exact hb) (by rw [hw0, getObjectAt_setObj]; exact hcell)
      hsolid hpush hex hey htx0 (by rw [hw0]; exact htxw) hfree0
    refine ⟨h.1, h.2.1, ?_⟩
    rw [h.2.2, hw0, posOf_setObj]
    simp [setMoveDirection_gridX, setMoveDirection_gridY]
  rcases hdir with hd | hd
  · subst hd
    simp only [if_pos rfl]
    unfold moveRight
    rw [hp]
    exact key 1 rfl
  · subst hd
    simp only [reduceCtorEq, if_neg]
    unfold moveLeft
    rw [hp]
    have := key (-1) rfl
    simpa [Int.sub_eq_add_neg] using this

/-- Claim C10, witness: the player at (0,5) pushes a floating, sliding,
weight-6 pot (every Push System constraint violated) from (1,5) to
(2,5) and stays at (0,5), with `moveRight` returning `true`. -/
theorem C10_player_push_bypasses_push_system_witness :
    (moveRight playerPushWorld 0).1 = true
    ∧ posOf (moveRight playerPushWorld 0).2 1 = some (2, 5)
    ∧ posOf (moveRight playerPushWorld 0).2 0 = some (0, 5) := by
  have h := C10_player_push_bypasses_push_system playerPushWorld 0 1
    (mkPlayer 0 5)
    ({ mkPot 1 5 true with props :=
      { (mkPot 1 5 true).props with weight := some 6, sliding := some true } })
    1 (Or.inl rfl) (by decide) (by decide) (by decide) (by decide) (by decide)
    (by decide) (by decide) (by decide) (by decide) (by decide) (by decide)
    (by
      intro j hj
      have hn : (none : Option Nat) = some j := Eq.trans (by decide) hj
      exact Option.noConfusion hn)
  simpa using h

/-! ## Claim C5 — chain push direction and batching -/

theorem chainVisit_vert (pid : Nat) (x : Int) (s' : PushState) (y' : Int) :
    chainVisit pid x s' (x, y') = s' := by
  unfold chainVisit
  cases h1 : s'.world.getObjectAt x y' with
  | none => rfl
  | some j =>
    cases h2 : s'.world.obj j with
    | none => simp [h2]
    | some o =>
      simp only [h2]
      split
      · simp
      · rfl

theorem chainVisit_left (pid : Nat) (x y : Int) (s' : PushState) :
    chainVisit pid x s' (x - 1, y)
      = { s' with requests := s'.requests ++
          (match s'.world.getObjectAt (x - 1) y with
           | some j =>
             match s'.world.obj j with
             | some o =>
               if o.isPushable && j ≠ pid then
                 [⟨j, Dir.left, 1 / 2, o.getPushDistance⟩]
               else []
             | none => []
           | none => []) } := by
  unfold chainVisit
  cases h1 : s'.world.getObjectAt (x - 1) y with
  | none => simp [h1]
  | some j =>
    cases h2 : s'.world.obj j with
    | none => simp [h1, h2]
    | some o =>
      simp only [h1, h2]
      by_cases hc : (o.isPushable && decide (j ≠ pid)) = true
      · have hpu : o.isPushable = true := by
          revert hc
          cases o.isPushable <;> simp
        rw [if_pos hc, if_pos hc]
        have hdx : x - 1 - x = -1 := by ring
        rw [hdx]
        norm_num [requestPush, h2, hpu]
      · rw [if_neg hc, if_neg hc]
        simp

theorem chainVisit_right (pid : Nat) (x y : Int) (s' : PushState) :
    chainVisit pid x s' (x + 1, y)
      = { s' with requests := s'.requests ++
          (match s'.world.getObjectAt (x + 1) y with
           | some j =>
             match s'.world.obj j with
             | some o =>
               if o.isPushable && j ≠ pid then
                 [⟨j, Dir.right, 1 / 2, o.getPushDistance⟩]
               else []
             | none => []
           | none => []) } := by
  unfold chainVisit
  cases h1 : s'.world.getObjectAt (x + 1) y with
  | none => simp [h1]
  | some j =>
    cases h2 : s'.world.obj j with
    | none => simp [h1, h2]
    | some o =>
      simp only [h1, h2]
      by_cases hc : (o.isPushable && decide (j ≠ pid)) = true
      · have hpu : o.isPushable = true := by
          revert hc
          cases o.isPushable <;> simp
        rw [if_pos hc, if_pos hc]
        have hdx : x + 1 - x = 1 := by ring
        rw [hdx]
        norm_num [requestPush, h2, hpu]
      · rw [if_neg hc, if_neg hc]
        simp

/-- Claim C5, counterexample: pushing the stone (push_distance 2) at
(2,0) to the RIGHT lands it at (4,0); the pushable ice block at (3,0)
— adjacent on the LEFT of the new position — receives a chained
request with direction `left`, the OPPOSITE of the causing
displacement, and is not moved in the same batch. -/
theorem C5_counterexample :
    ((processPushRequests (requestPush chainWorld 0 Dir.right 1)).requests.map
        (fun r => (r.objId, r.direction, r.distance))) = [(1, Dir.left, 1)]
    ∧ Dir.left ≠ Dir.right
    ∧ posOf (processPushRequests (requestPush chainWorld 0 Dir.right 1)).world 0
        = some (4, 0)
    ∧ posOf (processPushRequests (requestPush chainWorld 0 Dir.right 1)).world 1
        = some (3, 0) := by
  refine ⟨by decide, by decide, by decide, by decide⟩

/-- Claim C5, amended: after a successful push lands an entity at
(x, y), `checkChainPushes` leaves the world untouched and appends, in
order, one chained request for a pushable occupant of (x-1, y) with
direction `left` and one for a pushable occupant of (x+1, y) with
direction `right` — i.e. directed AWAY from the new position, not in
the causing direction — each with force literally 0.5 (not half of the
causing force) and the neighbour's own `push_distance`; vertically
adjacent pushables receive no chain request.  Chained requests are
only drained by a subsequent `processPushRequests` call: in the
concrete chain scenario the ice block is still at (3,0) after the
first call and only reaches (2,0) after the second. -/
theorem C5_chain_push_amended (s : PushState) (pid : Nat) (x y : Int) :
    ((checkChainPushes s pid x y).world = s.world
    ∧ (checkChainPushes s pid x y).requests
      = s.requests
        ++ (match s.world.getObjectAt (x - 1) y with
            | some j =>
              match s.world.obj j with
              | some o =>
                if o.isPushable && j ≠ pid then
                  [⟨j, Dir.left, 1 / 2, o.getPushDistance⟩]
                else []
              | none => []
            | none => [])
        ++ (match s.world.getObjectAt (x + 1) y with
            | some j =>
              match s.world.obj j with
              | some o =>
                if o.isPushable && j ≠ pid then
                  [⟨j, Dir.right, 1 / 2, o.getPushDistance⟩]
                else []
              | none => []
            | none => []))
    ∧ posOf (processPushRequests (requestPush chainWorld 0 Dir.right 1)).world 1
        = some (3, 0)
    ∧ posOf (processPushRequests (processPushRequests
        (requestPush chainWorld 0 Dir.right 1))).world 1 = some (2, 0) := by
  refine ⟨?_, by decide, by decide⟩
  unfold checkChainPushes
  simp only [List.foldl]
  rw [chainVisit_left, chainVisit_right, chainVisit_vert, chainVisit_vert]
  exact ⟨rfl, by simp [List.append_assoc]⟩

/-! ## Claim C7 — portal pairing at level parse -/

/-- Claim C7 (code bug): loading the level `"1.1"` yields a portal
glyph group of exactly two members, and `Portal.createPortalPair`
does produce a mutually paired pair of fresh portals — but
`LevelManager.createPortalPairs` DISCARDS that return value, so the
two Portal entities actually placed in the World keep
`pairedPortal = null` and are never ready: the claimed back-references
do not exist in the loaded world. -/
theorem C7_portal_pairing_discarded :
    portalLevelWorld.store.length = 2
    ∧ ((portalLevelWorld.obj 0).map (fun o => o.otype)) = some ObjType.portal
    ∧ ((portalLevelWorld.obj 1).map (fun o => o.otype)) = some ObjType.portal
    ∧ ((portalLevelWorld.obj 0).map (fun o =>
          match o.kind with
          | KindData.portal pp _ _ => pp.isSome
          | _ => true)) = some false
    ∧ ((portalLevelWorld.obj 1).map (fun o =>
          match o.kind with
          | KindData.portal pp _ _ => pp.isSome
          | _ => true)) = some false
    ∧ ((portalLevelWorld.obj 0).map isReady) = some false
    ∧ ((portalLevelWorld.obj 1).map isReady) = some false
    ∧ (match (createPortalPair 2 0 0 2 0 "pair_1").1.1.2.kind with
       | KindData.portal pp _ _ => pp
       | _ => none) = some 3
    ∧ (match (createPortalPair 2 0 0 2 0 "pair_1").1.2.2.kind with
       | KindData.portal pp _ _ => pp
       | _ => none) = some 2 := by
  refine ⟨by decide, by decide, by decide, by decide, by decide, by decide,
    by decide, by decide, by decide⟩

/-! ## Claim C1 — grid/index consistency and the portal teleport -/

/-- Claim C1 (code bug): `Portal.teleport` relocates the colliding
object with a direct `setPosition`, not through `World.moveObject`.
Starting from a consistent reachable world (paired portals placed with
`addObject`, stone id 2 at (1,0)), one `Portal.onCollision` leaves the
grid cell (1,0) still holding the stone while the stone's position
fields read (3,0): an occupied cell whose occupant's stored
coordinates disagree with the cell, refuting the invariant. -/
theorem C1_teleport_bypasses_world :
    pairedPortalWorld.getObjectAt 1 0 = some 2
    ∧ posOf pairedPortalWorld 2 = some (1, 0)
    ∧ (objOnCollision pairedPortalWorld 0 2).getObjectAt 1 0 = some 2
    ∧ posOf (objOnCollision pairedPortalWorld 0 2) 2 = some (3, 0)
    ∧ ¬ (∀ x y j,
          (objOnCollision pairedPortalWorld 0 2).getObjectAt x y = some j →
          posOf (objOnCollision pairedPortalWorld 0 2) j = some (x, y)) := by
  refine ⟨by decide, by decide, by decide, by decide, ?_⟩
  intro h
  have h1 := h 1 0 2 (by decide)
  have h2 : posOf (objOnCollision pairedPortalWorld 0 2) 2
      = some ((3 : Int), (0 : Int)) := by decide
  rw [h1] at h2
  exact absurd h2 (by decide)

/-! ## Claim C3 — gravity per fixed step -/

theorem startHeating_otype (o : Obj) : (startHeating o).otype = o.otype := by
  obtain ⟨gx, gy, act, ot, pr, k⟩ := o
  cases k <;> rfl

theorem coolDown_otype (o : Obj) : (coolDown o).otype = o.otype := by
  obtain ⟨gx, gy, act, ot, pr, k⟩ := o
  cases k <;> rfl

theorem posOf_setObj_samePos (w : World) (m : Nat) (p p' : Obj)
    (hm : w.obj m = some p) (hx : p'.gridX = p.gridX) (hy : p'.gridY = p.gridY)
    (k : Nat) : posOf (w.setObj m p') k = posOf w k := by
  rw [posOf_setObj]
  by_cases hk : k = m
  · subst hk
    simp [posOf, hm, hx, hy]
  · simp [hk]

theorem objMap_otype_setObj (w : World) (m : Nat) (p p' : Obj)
    (hm : w.obj m = some p) (ht : p'.otype = p.otype) (k : Nat) :
    ((w.setObj m p').obj k).map Obj.otype = ((w.obj k).map Obj.otype) := by
  by_cases hk : k = m
  · subst hk
    rw [obj_setObj_self, hm]
    simp [ht]
  · rw [obj_setObj_ne w m p' k hk]

theorem portalCooldownSet_gridX (p : Obj) :
    (match p.kind with
     | KindData.portal pp ps _ => { p with kind := KindData.portal pp ps 1 }
     | _ => p).gridX = p.gridX := by
  obtain ⟨gx, gy, act, ot, pr, k⟩ := p
  cases k <;> rfl

theorem portalCooldownSet_gridY (p : Obj) :
    (match p.kind with
     | KindData.portal pp ps _ => { p with kind := KindData.portal pp ps 1 }
     | _ => p).gridY = p.gridY := by
  obtain ⟨gx, gy, act, ot, pr, k⟩ := p
  cases k <;> rfl

theorem posOf_portalTeleport_ne (w : World) (a b k : Nat) (hk : k ≠ b) :
    posOf (portalTeleport w a b) k = posOf w k := by
  unfold portalTeleport
  cases hsa : w.obj a with
  | none => rfl
  | some self =>
    simp only
    cases hsk : self.kind with
    | portal pp pid cd =>
      cases pp with
      | none => rfl
      | some pairedId =>
        simp only
        cases hpd : w.obj pairedId with
        | none => rfl
        | some paired =>
          simp only
          cases hob : w.obj b with
          | none =>
            simp only
            have hw2 : posOf
                (w.setObj a { self with kind := KindData.portal (some pairedId) pid 1 }) k
                = posOf w k :=
              posOf_setObj_samePos w a self
                { self with kind := KindData.portal (some pairedId) pid 1 } hsa rfl rfl k
            cases hp2 : (w.setObj a
                { self with kind := KindData.portal (some pairedId) pid 1 }).obj pairedId with
            | none => exact hw2
            | some p =>
              exact (posOf_setObj_samePos _ pairedId p _ hp2
                (portalCooldownSet_gridX p) (portalCooldownSet_gridY p) k).trans hw2
          | some other =>
            simp only
            have hw1 : posOf (w.setObj b (other.setPosition paired.gridX paired.gridY)) k
                = posOf w k := by
              rw [posOf_setObj, if_neg hk]
            have hw2 : posOf
                ((w.setObj b (other.setPosition paired.gridX paired.gridY)).setObj a
                  { self with kind := KindData.portal (some pairedId) pid 1 }) k
                = posOf w k := by
              by_cases hab : a = b
              · subst hab
                rw [posOf_setObj, if_neg hk]
                exact hw1
              · exact (posOf_setObj_samePos _ a self
                  { self with kind := KindData.portal (some pairedId) pid 1 }
                  (by rw [obj_setObj_ne w b _ a hab]; exact hsa) rfl rfl k).trans hw1
            cases hp2 : ((w.setObj b (other.setPosition paired.gridX paired.gridY)).setObj a
                { self with kind := KindData.portal (some pairedId) pid 1 }).obj pairedId with
            | none => exact hw2
            | some p =>
              exact (posOf_setObj_samePos _ pairedId p _ hp2
                (portalCooldownSet_gridX p) (portalCooldownSet_gridY p) k).trans hw2
    | player a1 a2 a3 => rfl
    | wall => rfl
    | stone => rfl
    | iceBlock a1 a2 => rfl
    | flame => rfl
    | pot a1 a2 a3 => rfl

theorem posOf_setObj_destroy (w' : World) (m : Nat) (q : Obj)
    (hm : w'.obj m = some q) (k : Nat) :
    posOf (w'.setObj m q.destroy) k = posOf w' k :=
  posOf_setObj_samePos w' m q q.destroy hm (destroy_gridX q) (destroy_gridY q) k

/-- `onCollision` never changes any object's position fields, except
that a ready portal receiver teleports the OTHER object: positions are
preserved for every id other than `b`, and for `b` as well whenever the
receiver is not of portal type. -/
theorem posOf_objOnCollision (w : World) (a b k : Nat)
    (h : k ≠ b ∨ ∀ s, w.obj a = some s → s.otype ≠ ObjType.portal) :
    posOf (objOnCollision w a b) k = posOf w k := by
  unfold objOnCollision
  cases hsa : w.obj a with
  | none => cases w.obj b <;> rfl
  | some self =>
    cases hsb : w.obj b with
    | none => rfl
    | some other =>
      simp only
      cases hot : self.otype with
      | iceBlock =>
        simp only
        by_cases hf : (other.otype == ObjType.flame) = true
        · rw [if_pos hf]
          have houter : (w.setObj a (startMelting self)).obj b
              = some (if b = a then startMelting self else other) := by
            by_cases hab : b = a
            · subst hab
              rw [obj_setObj_self]
              simp
            · rw [obj_setObj_ne w a _ b hab, hsb]
              simp [hab]
          by_cases hab : b = a
          · subst hab
            have hoeq : other = self := by
              rw [hsa] at hsb
              exact (Option.some.injEq _ _ ▸ hsb).symm
            refine (posOf_setObj_samePos _ b (startMelting self) other.destroy ?_ ?_ ?_ k).trans
              (posOf_setObj_samePos w b self (startMelting self) hsa
                (startMelting_gridX self) (startMelting_gridY self) k)
            · simpa using houter
            · rw [destroy_gridX, hoeq, startMelting_gridX]
            · rw [destroy_gridY, hoeq, startMelting_gridY]
          · refine (posOf_setObj_samePos _ b other other.destroy ?_
                (destroy_gridX other) (destroy_gridY other) k).trans
              (posOf_setObj_samePos w a self (startMelting self) hsa
                (startMelting_gridX self) (startMelting_gridY self) k)
            simpa [hab] using houter
        · rw [if_neg hf]
      | flame =>
        simp only
        by_cases h1 : (other.otype == ObjType.iceBlock) = true
        · rw [if_pos h1]
          exact posOf_setObj_samePos w a self self.destroy hsa
            (destroy_gridX self) (destroy_gridY self) k
        · rw [if_neg h1]
          by_cases h2 : (other.otype == ObjType.pot && other.props.isCold.getD false) = true
          · rw [if_pos h2]
            exact posOf_setObj_samePos w a self self.destroy hsa
              (destroy_gridX self) (destroy_gridY self) k
          · rw [if_neg h2]
      | pot =>
        simp only
        by_cases hf : (other.otype == ObjType.flame && potIsCold self) = true
        · rw [if_pos hf]
          have houter : (w.setObj a (startHeating self)).obj b
              = some (if b = a then startHeating self else other) := by
            by_cases hab : b = a
            · subst hab
              rw [obj_setObj_self]
              simp
            · rw [obj_setObj_ne w a _ b hab, hsb]
              simp [hab]
          by_cases hab : b = a
          · subst hab
            have hoeq : other = self := by
              rw [hsa] at hsb
              exact (Option.some.injEq _ _ ▸ hsb).symm
            refine (posOf_setObj_samePos _ b (startHeating self) other.destroy ?_ ?_ ?_ k).trans
              (posOf_setObj_samePos w b self (startHeating self) hsa
                (startHeating_gridX self) (startHeating_gridY self) k)
            · simpa using houter
            · rw [destroy_gridX, hoeq, startHeating_gridX]
            · rw [destroy_gridY, hoeq, startHeating_gridY]
          · refine (posOf_setObj_samePos _ b other other.destroy ?_
                (destroy_gridX other) (destroy_gridY other) k).trans
              (posOf_setObj_samePos w a self (startHeating self) hsa
                (startHeating_gridX self) (startHeating_gridY self) k)
            simpa [hab] using houter
        · rw [if_neg hf]
          by_cases hi : (other.otype == ObjType.iceBlock && !potIsCold self) = true
          · rw [if_pos hi]
            have hinner : (w.setObj b other.destroy).obj a
                = some (if a = b then other.destroy else self) := by
              by_cases hab : a = b
              · subst hab
                rw [obj_setObj_self]
                simp
              · rw [obj_setObj_ne w b _ a hab, hsa]
                simp [hab]
            by_cases hab : a = b
            · subst hab
              have hoeq : other = self := by
                rw [hsa] at hsb
                exact (Option.some.injEq _ _ ▸ hsb).symm
              refine (posOf_setObj_samePos _ a other.destroy (coolDown self) ?_ ?_ ?_ k).trans
                (posOf_setObj_samePos w a self other.destroy hsa ?_ ?_ k)
              · simpa using hinner
              · rw [coolDown_gridX, destroy_gridX, hoeq]
              · rw [coolDown_gridY, destroy_gridY, hoeq]
              · rw [destroy_gridX, hoeq]
              · rw [destroy_gridY, hoeq]
            · refine (posOf_setObj_samePos _ a self (coolDown self) ?_
                  (coolDown_gridX self) (coolDown_gridY self) k).trans
                (posOf_setObj_destroy w b other hsb k)
              simpa [hab] using hinner
          · rw [if_neg hi]
      | stone =>
        simp only
        by_cases hf : (other.otype == ObjType.flame) = true
        · rw [if_pos hf]
          exact posOf_setObj_destroy w b other hsb k
        · rw [if_neg hf]
      | portal =>
        simp only
        rcases h with hk | hnp
        · cases hsk : self.kind with
          | portal pp pid cd =>
            simp only
            by_cases hg : (pp.isNone || decide (cd > 0)) = true
            · rw [if_pos hg]
            · rw [if_neg hg]
              by_cases hct : canTeleportType other.otype = true
              · rw [if_pos hct]
                exact posOf_portalTeleport_ne w a b k hk
              · rw [if_neg hct]
          | player a1 a2 a3 => rfl
          | wall => rfl
          | stone => rfl
          | iceBlock a1 a2 => rfl
          | flame => rfl
          | pot a1 a2 a3 => rfl
        · exact absurd hot (hnp self hsa)
      | player => rfl
      | wall => rfl

theorem moveObject_success (w : World) (fx fy tx ty : Int) (i : Nat) (o : Obj)
    (hbf : w.isOutOfBounds fx fy = false) (hbt : w.isOutOfBounds tx ty = false)
    (hcf : w.cell fx fy = some i) (hct : w.cell tx ty = none)
    (hst : mapGet w.store i = some o) :
    w.moveObject fx fy tx ty =
      (true,
        { w with
            grid := mapSet (mapDelete w.grid (fx, fy)) (tx, ty) i
            index := mapSet (mapDelete w.index (fx, fy)) (tx, ty) i
            store := mapSet w.store i (o.setPosition tx ty) }) := by
  simp [World.moveObject, hbf, hbt, hcf, hct, hst]

theorem portalCooldownSet_otype (p : Obj) :
    (match p.kind with
     | KindData.portal pp ps _ => { p with kind := KindData.portal pp ps 1 }
     | _ => p).otype = p.otype := by
  obtain ⟨gx, gy, act, ot, pr, k⟩ := p
  cases k <;> rfl

theorem objMap_otype_portalTeleport (w : World) (a b m : Nat) :
    ((portalTeleport w a b).obj m).map Obj.otype = ((w.obj m).map Obj.otype) := by
  unfold portalTeleport
  cases hsa : w.obj a with
  | none => rfl
  | some self =>
    simp only
    cases hsk : self.kind with
    | portal pp pid cd =>
      cases pp with
      | none => rfl
      | some pairedId =>
        simp only
        cases hpd : w.obj pairedId with
        | none => rfl
        | some paired =>
          simp only
          cases hob : w.obj b with
          | none =>
            simp only
            have hw2 : ∀ k, ((w.setObj a
                { self with kind := KindData.portal (some pairedId) pid 1 }).obj k).map
                  Obj.otype = (w.obj k).map Obj.otype :=
              objMap_otype_setObj w a self
                { self with kind := KindData.portal (some pairedId) pid 1 } hsa rfl
            cases hp2 : (w.setObj a
                { self with kind := KindData.portal (some pairedId) pid 1 }).obj pairedId with
            | none => exact hw2 m
            | some p =>
              exact (objMap_otype_setObj _ pairedId p _ hp2
                (portalCooldownSet_otype p) m).trans (hw2 m)
          | some other =>
            simp only
            have hw1 : ∀ k, ((w.setObj b
                (other.setPosition paired.gridX paired.gridY)).obj k).map Obj.otype
                = (w.obj k).map Obj.otype :=
              objMap_otype_setObj w b other _ hob rfl
            have hw2 : ∀ k, (((w.setObj b (other.setPosition paired.gridX paired.gridY)).setObj a
                { self with kind := KindData.portal (some pairedId) pid 1 }).obj k).map
                  Obj.otype = (w.obj k).map Obj.otype := by
              intro k
              by_cases hab : a = b
              · subst hab
                have hoeq : other = self := by
                  rw [hsa] at hob
                  exact (Option.some.injEq _ _ ▸ hob).symm
                refine (objMap_otype_setObj _ a (other.setPosition paired.gridX paired.gridY)
                  { self with kind := KindData.portal (some pairedId) pid 1 }
                  ?_ ?_ k).trans (hw1 k)
                · exact obj_setObj_self w a _
                · rw [hoeq]
                  rfl
              · exact (objMap_otype_setObj _ a self
                  { self with kind := KindData.portal (some pairedId) pid 1 }
                  (by rw [obj_setObj_ne w b _ a hab]; exact hsa) rfl k).trans (hw1 k)
            cases hp2 : ((w.setObj b (other.setPosition paired.gridX paired.gridY)).setObj a
                { self with kind := KindData.portal (some pairedId) pid 1 }).obj pairedId with
            | none => exact hw2 m
            | some p =>
              exact (objMap_otype_setObj _ pairedId p _ hp2
                (portalCooldownSet_otype p) m).trans (hw2 m)
    | player a1 a2 a3 => rfl
    | wall => rfl
    | stone => rfl
    | iceBlock a1 a2 => rfl
    | flame => rfl
    | pot a1 a2 a3 => rfl

/-- `onCollision` never changes any object's type. -/
theorem objMap_otype_objOnCollision (w : World) (a b m : Nat) :
    ((objOnCollision w a b).obj m).map Obj.otype = ((w.obj m).map Obj.otype) := by
  unfold objOnCollision
  cases hsa : w.obj a with
  | none => cases w.obj b <;> rfl
  | some self =>
    cases hsb : w.obj b with
    | none => rfl
    | some other =>
      simp only
      cases hot : self.otype with
      | iceBlock =>
        simp only
        by_cases hf : (other.otype == ObjType.flame) = true
        · rw [if_pos hf]
          have houter : (w.setObj a (startMelting self)).obj b
              = some (if b = a then startMelting self else other) := by
            by_cases hab : b = a
            · subst hab
              rw [obj_setObj_self]
              simp
            · rw [obj_setObj_ne w a _ b hab, hsb]
              simp [hab]
          by_cases hab : b = a
          · subst hab
            have hoeq : other = self := by
              rw [hsa] at hsb
              exact (Option.some.injEq _ _ ▸ hsb).symm
            refine (objMap_otype_setObj _ b (startMelting self) other.destroy ?_ ?_ m).trans
              (objMap_otype_setObj w b self (startMelting self) hsa
                (startMelting_otype self) m)
            · simpa using houter
            · rw [destroy_otype, hoeq, startMelting_otype]
          · refine (objMap_otype_setObj _ b other other.destroy ?_
                (destroy_otype other) m).trans
              (objMap_otype_setObj w a self (startMelting self) hsa
                (startMelting_otype self) m)
            simpa [hab] using houter
        · rw [if_neg hf]
      | flame =>
        simp only
        by_cases h1 : (other.otype == ObjType.iceBlock) = true
        · rw [if_pos h1]
          exact objMap_otype_setObj w a self self.destroy hsa (destroy_otype self) m
        · rw [if_neg h1]
          by_cases h2 : (other.otype == ObjType.pot && other.props.isCold.getD false) = true
          · rw [if_pos h2]
            exact objMap_otype_setObj w a self self.destroy hsa (destroy_otype self) m
          · rw [if_neg h2]
      | pot =>
        simp only
        by_cases hf : (other.otype == ObjType.flame && potIsCold self) = true
        · rw [if_pos hf]
          have houter : (w.setObj a (startHeating self)).obj b
              = some (if b = a then startHeating self else other) := by
            by_cases hab : b = a
            · subst hab
              rw [obj_setObj_self]
              simp
            · rw [obj_setObj_ne w a _ b hab, hsb]
              simp [hab]
          by_cases hab : b = a
          · subst hab
            have hoeq : other = self := by
              rw [hsa] at hsb
              exact (Option.some.injEq _ _ ▸ hsb).symm
            refine (objMap_otype_setObj _ b (startHeating self) other.destroy ?_ ?_ m).trans
              (objMap_otype_setObj w b self (startHeating self) hsa
                (startHeating_otype self) m)
            · simpa using houter
            · rw [destroy_otype, hoeq, startHeating_otype]
          · refine (objMap_otype_setObj _ b other other.destroy ?_
                (destroy_otype other) m).trans
              (objMap_otype_setObj w a self (startHeating self) hsa
                (startHeating_otype self) m)
            simpa [hab] using houter
        · rw [if_neg hf]
          by_cases hi : (other.otype == ObjType.iceBlock && !potIsCold self) = true
          · rw [if_pos hi]
            have hinner : (w.setObj b other.destroy).obj a
                = some (if a = b then other.destroy else self) := by
              by_cases hab : a = b
              · subst hab
                rw [obj_setObj_self]
                simp
              · rw [obj_setObj_ne w b _ a hab, hsa]
                simp [hab]
            by_cases hab : a = b
            · subst hab
              have hoeq : other = self := by
                rw [hsa] at hsb
                exact (Option.some.injEq _ _ ▸ hsb).symm
              refine (objMap_otype_setObj _ a other.destroy (coolDown self) ?_ ?_ m).trans
                (objMap_otype_setObj w a self other.destroy hsa ?_ m)
              · simpa using hinner
              · rw [coolDown_otype, destroy_otype, hoeq]
              · rw [destroy_otype, hoeq]
            · refine (objMap_otype_setObj _ a self (coolDown self) ?_
                  (coolDown_otype self) m).trans
                (objMap_otype_setObj w b other other.destroy hsb (destroy_otype other) m)
              simpa [hab] using hinner
          · rw [if_neg hi]
      | stone =>
        simp only
        by_cases hf : (other.otype == ObjType.flame) = true
        · rw [if_pos hf]
          exact objMap_otype_setObj w b other other.destroy hsb (destroy_otype other) m
        · rw [if_neg hf]
      | portal =>
        simp only
        cases hsk : self.kind with
        | portal pp pid cd =>
          simp only
          by_cases hg : (pp.isNone || decide (cd > 0)) = true
          · rw [if_pos hg]
          · rw [if_neg hg]
            by_cases hct : canTeleportType other.otype = true
            · rw [if_pos hct]
              exact objMap_otype_portalTeleport w a b m
            · rw [if_neg hct]
        | player a1 a2 a3 => rfl
        | wall => rfl
        | stone => rfl
        | iceBlock a1 a2 => rfl
        | flame => rfl
        | pot a1 a2 a3 => rfl
      | player => rfl
      | wall => rfl

/-- `handleLanding` preserves the landed object's position fields,
provided the occupant of the cell below the landing cell (if any) is
a different object and not of portal type. -/
theorem posOf_handleLanding (w : World) (i : Nat) (targetY : Int) (o : Obj)
    (hio : w.obj i = some o)
    (hnp : ∀ j t, w.getObjectAt o.gridX (targetY - 1) = some j → w.obj j = some t →
        t.otype ≠ ObjType.portal)
    (hji : ∀ j, w.getObjectAt o.gridX (targetY - 1) = some j → j ≠ i) :
    posOf (handleLanding w i targetY) i = posOf w i := by
  have hred : handleLanding w i targetY =
      (if targetY - 1 ≥ 0 then
        match w.getObjectAt o.gridX (targetY - 1) with
        | some j =>
          (match (objOnCollision (objOnCollision w i j) j i).obj i,
              (objOnCollision (objOnCollision w i j) j i).obj j with
           | some o2, some b2 =>
             if (decide (o2.getWeight > b2.getWeight) && b2.isFragile) = true then
               (objOnCollision (objOnCollision w i j) j i).setObj j b2.destroy
             else objOnCollision (objOnCollision w i j) j i
           | _, _ => objOnCollision (objOnCollision w i j) j i)
        | none => w
      else w) := by
    unfold handleLanding
    rw [hio]
  rw [hred]
  by_cases hby : targetY - 1 ≥ 0
  · rw [if_pos hby]
    cases hj : w.getObjectAt o.gridX (targetY - 1) with
    | none => rfl
    | some j =>
      have hjne : j ≠ i := hji j hj
      have h1 : posOf (objOnCollision w i j) i = posOf w i :=
        posOf_objOnCollision w i j i (Or.inl (Ne.symm hjne))
      have hnp1 : ∀ s, (objOnCollision w i j).obj j = some s →
          s.otype ≠ ObjType.portal := by
        intro s hs
        have ht := objMap_otype_objOnCollision w i j j
        rw [hs] at ht
        cases hwj : w.obj j with
        | none =>
          rw [hwj] at ht
          exact absurd ht (by simp)
        | some t =>
          rw [hwj] at ht
          simp at ht
          rw [ht]
          exact hnp j t hj hwj
      have h2 : posOf (objOnCollision (objOnCollision w i j) j i) i
          = posOf (objOnCollision w i j) i :=
        posOf_objOnCollision _ j i i (Or.inr hnp1)
      show posOf
          (match (objOnCollision (objOnCollision w i j) j i).obj i,
              (objOnCollision (objOnCollision w i j) j i).obj j with
           | some o2, some b2 =>
             if (decide (o2.getWeight > b2.getWeight) && b2.isFragile) = true then
               (objOnCollision (objOnCollision w i j) j i).setObj j b2.destroy
             else objOnCollision (objOnCollision w i j) j i
           | _, _ => objOnCollision (objOnCollision w i j) j i) i
        = posOf w i
      cases ho2 : (objOnCollision (objOnCollision w i j) j i).obj i with
      | none => exact h2.trans h1
      | some o2 =>
        cases hb2 : (objOnCollision (objOnCollision w i j) j i).obj j with
        | none => exact h2.trans h1
        | some b2 =>
          by_cases hcr : (decide (o2.getWeight > b2.getWeight) && b2.isFragile) = true
          · simpa [hcr] using (posOf_setObj_destroy _ j b2 hb2 i).trans (h2.trans h1)
          · simpa [hcr] using h2.trans h1
  · rw [if_neg hby]

theorem moveObject_dest_occupied (w : World) (fx fy tx ty : Int) (j : Nat)
    (hct : w.cell tx ty = some j) : w.moveObject fx fy tx ty = (false, w) := by
  unfold World.moveObject
  by_cases hb : (w.isOutOfBounds fx fy || w.isOutOfBounds tx ty) = true
  · simp [hb]
  · simp only [Bool.not_eq_true] at hb
    cases hcf : w.cell fx fy <;> simp [hb, hcf, hct]

/-- Claim C3, counterexample: a stone at (0,1) above an unpaired portal
at (0,0): the portal is in bounds and cannot support weight, so the
claim says the stone moves down one cell — but the fall is attempted
through `moveObject`, which refuses the occupied destination, and the
stone stays at (0,1) after the fixed step. -/
theorem C3_counterexample :
    (stoneOverPortalWorld.getObjectAt 0 0).isSome = true
    ∧ ((stoneOverPortalWorld.obj 1).map Obj.canSupportWeight) = some false
    ∧ stoneOverPortalWorld.isOutOfBounds 0 0 = false
    ∧ ((stoneOverPortalWorld.obj 0).map (fun o => isAffectedByGravity o)) = some true
    ∧ posOf stoneOverPortalWorld 0 = some (0, 1)
    ∧ posOf (fixedStep stoneOverPortalWorld) 0 = some (0, 1)
    ∧ ¬ posOf (fixedStep stoneOverPortalWorld) 0 = some (0, 0) := by
  refine ⟨by decide, by decide, by decide, by decide, by decide, by decide, by decide⟩

/-- Claim C3, amended: in each fixed physics step, a gravity-affected
entity moves down EXACTLY one cell when the cell directly below is in
bounds and EMPTY (provided the entity occupies exactly its own grid
cell and no portal sits two cells below to teleport it on landing);
when the below cell is out of bounds or OCCUPIED — even by an occupant
that cannot support weight, for which the fall is attempted but
`moveObject` refuses the occupied destination — the world is left
completely unchanged.  Consequently the entity at (5,10) above an
empty column is at (5,1) after 9 steps and at (5,0) after 10 and after
11 fixed steps. -/
theorem C3_gravity_per_step :
    (∀ (w : World) (i : Nat) (o : Obj),
      w.obj i = some o →
      isAffectedByGravity o = true →
      w.isOutOfBounds o.gridX o.gridY = false →
      w.isOutOfBounds o.gridX (o.gridY - 1) = false →
      w.cell o.gridX o.gridY = some i →
      (∀ x' y', w.cell x' y' = some i → (x', y') = (o.gridX, o.gridY)) →
      w.cell o.gridX (o.gridY - 1) = none →
      (∀ j t, w.getObjectAt o.gridX (o.gridY - 1 - 1) = some j → w.obj j = some t →
        t.otype ≠ ObjType.portal) →
      posOf (applyGravity w i) i = some (o.gridX, o.gridY - 1))
    ∧ (∀ (w : World) (i : Nat) (o : Obj),
        w.obj i = some o →
        ((w.getObjectAt o.gridX (o.gridY - 1)).isSome = true ∨ o.gridY - 1 < 0) →
        applyGravity w i = w)
    ∧ posOf (fixedSteps 9 fallWorld) 0 = some (5, 1)
    ∧ posOf (fixedSteps 10 fallWorld) 0 = some (5, 0)
    ∧ posOf (fixedSteps 11 fallWorld) 0 = some (5, 0) := by
  refine ⟨?_, ?_, by decide, by decide, by decide⟩
  · intro w i o hio haff hsb hdb hcell hcons hempty hb2
    have hga : w.getObjectAt o.gridX (o.gridY - 1) = none := by
      simp [World.getObjectAt, hdb, hempty]
    have hnb : ¬o.gridX < 0 ∧ ¬o.gridX ≥ w.width ∧ ¬o.gridY - 1 < 0
        ∧ ¬o.gridY - 1 ≥ w.height := by
      simpa [World.isOutOfBounds, Bool.or_eq_false_iff, decide_eq_false_iff_not,
        and_assoc] using hdb
    have hsf : shouldFall w o (o.gridY - 1) = true := by
      unfold shouldFall
      rw [if_neg hnb.2.2.1, hga]
    have hgr : applyGravity w i
        = (if shouldFall w o (o.gridY - 1) = true then fallObject w i (o.gridY - 1)
           else w) := by
      unfold applyGravity
      rw [hio]
    have hmv := moveObject_success w o.gridX o.gridY o.gridX (o.gridY - 1) i o
      hsb hdb hcell hempty hio
    have hfall0 : fallObject w i (o.gridY - 1)
        = (if (w.moveObject o.gridX o.gridY o.gridX (o.gridY - 1)).1 = true
           then handleLanding (w.moveObject o.gridX o.gridY o.gridX (o.gridY - 1)).2 i
             (o.gridY - 1)
           else (w.moveObject o.gridX o.gridY o.gridX (o.gridY - 1)).2) := by
      unfold fallObject
      rw [hio]
    rw [hgr, if_pos hsf, hfall0, hmv]
    simp only [if_true]
    set W1 : World :=
      { w with
          grid := mapSet (mapDelete w.grid (o.gridX, o.gridY)) (o.gridX, o.gridY - 1) i
          index := mapSet (mapDelete w.index (o.gridX, o.gridY)) (o.gridX, o.gridY - 1) i
          store := mapSet w.store i (o.setPosition o.gridX (o.gridY - 1)) } with hW1
    have hio1 : W1.obj i = some (o.setPosition o.gridX (o.gridY - 1)) := by
      rw [hW1]
      unfold World.obj
      simp only
      rw [mapGet_mapSet]
      simp
    have hpair1 : ((o.gridX, o.gridY - 1 - 1) : Int × Int) ≠ (o.gridX, o.gridY - 1) := by
      intro hq
      have hq2 := (Prod.mk.injEq _ _ _ _ ▸ hq).2
      omega
    have hpair2 : ((o.gridX, o.gridY - 1 - 1) : Int × Int) ≠ (o.gridX, o.gridY) := by
      intro hq
      have hq2 := (Prod.mk.injEq _ _ _ _ ▸ hq).2
      omega
    have hc2 : W1.cell o.gridX (o.gridY - 1 - 1) = w.cell o.gridX (o.gridY - 1 - 1) := by
      rw [hW1]
      unfold World.cell
      simp only
      rw [mapGet_mapSet, if_neg hpair1,
        mapGet_mapDelete_ne w.grid (o.gridX, o.gridY - 1 - 1) (o.gridX, o.gridY) hpair2]
    have hget2 : W1.getObjectAt o.gridX (o.gridY - 1 - 1)
        = w.getObjectAt o.gridX (o.gridY - 1 - 1) := by
      unfold World.getObjectAt
      rw [hc2]
      rfl
    have hx1 : (o.setPosition o.gridX (o.gridY - 1)).gridX = o.gridX := rfl
    have hres := posOf_handleLanding W1 i (o.gridY - 1)
      (o.setPosition o.gridX (o.gridY - 1)) hio1
      (by
        intro j t hj ht
        rw [hx1, hget2] at hj
        have hcellj : w.cell o.gridX (o.gridY - 1 - 1) = some j := by
          have hgj := hj
          unfold World.getObjectAt at hgj
          by_cases hoob : w.isOutOfBounds o.gridX (o.gridY - 1 - 1) = true
          · rw [if_pos hoob] at hgj
            exact Option.noConfusion hgj
          · rw [if_neg hoob] at hgj
            exact hgj
        have hjne : j ≠ i := by
          intro he
          subst he
          have hq := hcons o.gridX (o.gridY - 1 - 1) hcellj
          have : o.gridY - 1 - 1 = o.gridY := (Prod.mk.injEq _ _ _ _ ▸ hq).2
          omega
        have hobjsame : W1.obj j = w.obj j := by
          rw [hW1]
          unfold World.obj
          simp only
          rw [mapGet_mapSet]
          simp [hjne]
        rw [hobjsame] at ht
        exact hb2 j t hj ht)
      (by
        intro j hj
        rw [hx1, hget2] at hj
        have hcellj : w.cell o.gridX (o.gridY - 1 - 1) = some j := by
          have hgj := hj
          unfold World.getObjectAt at hgj
          by_cases hoob : w.isOutOfBounds o.gridX (o.gridY - 1 - 1) = true
          · rw [if_pos hoob] at hgj
            exact Option.noConfusion hgj
          · rw [if_neg hoob] at hgj
            exact hgj
        intro he
        subst he
        have hq := hcons o.gridX (o.gridY - 1 - 1) hcellj
        have : o.gridY - 1 - 1 = o.gridY := (Prod.mk.injEq _ _ _ _ ▸ hq).2
        omega)
    rw [hres, posOf, hio1]
    rfl
  · intro w i o hio hocc
    have hgr : applyGravity w i
        = (if shouldFall w o (o.gridY - 1) = true then fallObject w i (o.gridY - 1)
           else w) := by
      unfold applyGravity
      rw [hio]
    rw [hgr]
    rcases hocc with hs | hneg
    · obtain ⟨j, hj⟩ := Option.isSome_iff_exists.mp hs
      have hcellj : w.cell o.gridX (o.gridY - 1) = some j := by
        have hgj := hj
        unfold World.getObjectAt at hgj
        by_cases hoob : w.isOutOfBounds o.gridX (o.gridY - 1) = true
        · rw [if_pos hoob] at hgj
          exact Option.noConfusion hgj
        · rw [if_neg hoob] at hgj
          exact hgj
      by_cases hsf : shouldFall w o (o.gridY - 1) = true
      · rw [if_pos hsf]
        have hfall0 : fallObject w i (o.gridY - 1)
            = (if (w.moveObject o.gridX o.gridY o.gridX (o.gridY - 1)).1 = true
               then handleLanding (w.moveObject o.gridX o.gridY o.gridX (o.gridY - 1)).2 i
                 (o.gridY - 1)
               else (w.moveObject o.gridX o.gridY o.gridX (o.gridY - 1)).2) := by
          unfold fallObject
          rw [hio]
        rw [hfall0, moveObject_dest_occupied w _ _ _ _ j hcellj]
        simp
      · rw [if_neg hsf]
    · have hsf : shouldFall w o (o.gridY - 1) = false := by
        unfold shouldFall
        rw [if_pos hneg]
      rw [hsf]
      simp

/-- Claim C3, witness: a lone stone at (2,3) above an empty cell falls
to (2,2) in one gravity application, and the stone resting on the
(non-weight-supporting, occupied) portal cell stays put with the world
unchanged. -/
theorem C3_gravity_per_step_witness :
    posOf (applyGravity ((emptyWorld.addObject 0 (mkStone 2 3) 2 3).2) 0) 0 = some (2, 2)
    ∧ applyGravity stoneOverPortalWorld 0 = stoneOverPortalWorld := by
  constructor
  · refine C3_gravity_per_step.1 ((emptyWorld.addObject 0 (mkStone 2 3) 2 3).2) 0
      (mkStone 2 3) (by decide) (by decide) (by decide) (by decide) (by decide)
      ?_ (by decide) ?_
    · intro x' y' h
      by_cases hp : (x', y') = (((2 : Int)), ((3 : Int)))
      · rw [hp]
        decide
      · exfalso
        have hn : (emptyWorld.addObject 0 (mkStone 2 3) 2 3).2.cell x' y'
            = mapGet [((((2 : Int)), ((3 : Int))), (0 : Nat))] (x', y') := rfl
        have hnone : mapGet [((((2 : Int)), ((3 : Int))), (0 : Nat))] (x', y') = none := by
          unfold mapGet
          rw [if_neg (fun hq : ((2 : Int), (3 : Int)) = (x', y') => hp hq.symm)]
          rfl
        rw [hn, hnone] at h
        exact Option.noConfusion h
    · intro j t hj
      exact Option.noConfusion (Eq.trans (by decide : (none : Option Nat) = _) hj)
  · exact C3_gravity_per_step.2.1 stoneOverPortalWorld 0 (mkStone 0 1) (by decide)
      (Or.inl (by decide))

end Icer
